import Mathlib

/-!
# Verification of `Scripts/atacr_download_data.py` (OBStools)

Shallow embedding of the day-long download/preprocess orchestration script.
Time values are POSIX seconds (`Nat`); the external FDSN client, the obspy
preprocessing chain and the filesystem are modelled by an explicit `World`
oracle; the observable behaviour of a run is an event log (per-day banner,
waveform requests, file writes) together with the final filesystem state or
an uncaught exception (`Except.error`).
-/

namespace Atacr

/-! ## Calendar: model of `obspy.UTCDateTime.year` / `.julday`

`UTCDateTime` is POSIX (no leap seconds); `year`/`julday` of a timestamp are
the proleptic-Gregorian year and 1-based day of year of `t / 86400` days past
1970-01-01.  The recursion walks year by year; the fuel `d + 1` is an upper
bound on the number of years consumed since every year has at least 365 days.
-/

def isLeap (y : Nat) : Bool := (y % 4 == 0 && y % 100 != 0) || y % 400 == 0

def daysInYear (y : Nat) : Nat := if isLeap y then 366 else 365

def yearDoyAux : Nat → Nat → Nat → Nat × Nat
  | 0, y, d => (y, d + 1)
  | fuel + 1, y, d =>
      if d < daysInYear y then (y, d + 1)
      else yearDoyAux fuel (y + 1) (d - daysInYear y)

/-- `(year, julday)` of a POSIX timestamp, as obspy's `UTCDateTime` reports. -/
def yearDoy (t : Nat) : Nat × Nat := yearDoyAux (t / 86400 + 1) 1970 (t / 86400)

def year (t : Nat) : Nat := (yearDoy t).1

def julday (t : Nat) : Nat := (yearDoy t).2

/-- Python `str.zfill`: left-pad with `'0'` to the given width
(the sign handling of `zfill` is irrelevant here: inputs are unsigned). -/
def zfill (w : Nat) (s : String) : String :=
  if w ≤ s.length then s
  else String.mk (List.replicate (w - s.length) '0') ++ s

/-- Source line 206: `tstamp = str(t1.year).zfill(4)+'.'+str(t1.julday).zfill(3)+'.'`.
Note the trailing dot is part of the stamp. -/
def tstamp (t1 : Nat) : String :=
  zfill 4 (toString (year t1)) ++ "." ++ zfill 3 (toString (julday t1)) ++ "."

/-! ## Data model -/

/-- One obspy trace, reduced to what the script observes: the component code
(`trace.stats.channel` last letter, used by `Stream.select(component=...)`),
the sample count `len(trace.data)`, the sampling rate (integral model of the
float `stats.sampling_rate`), and the station metadata attached by
`utils.update_stats` before writing. -/
structure Trace where
  comp : Char
  npts : Nat
  sr : Nat
  meta : Option (Int × Int × Int × Char) := none
deriving DecidableEq

/-- One `StDb` station record (the fields the script reads). -/
structure Station where
  network : String
  station : String
  channel : String
  location : List String
  latitude : Int
  longitude : Int
  elevation : Int
  startdate : Nat
  enddate : Nat
deriving DecidableEq

/-- The options returned by `options.get_daylong_options()` that the download
loop reads.  The script only ever tests `"P" in opts.channels` and
`"H" in opts.channels`, so the channel selection is modelled by those two
membership results. -/
structure Opts where
  chanH : Bool
  chanP : Bool
  startT : Option Nat
  endT : Option Nat
  ovr : Bool
  new_sampling_rate : Nat
deriving DecidableEq

/-- `Stream.select(component=c)`: the traces whose component code is `c`,
in stream order. -/
def select (c : Char) (st : List Trace) : List Trace :=
  st.filter (fun tr => tr.comp == c)

/-- Source lines 174–178: replace an empty location list by `['']`, then
replace every empty code by `"--"`. -/
def normalizeLocs (locs : List String) : List String :=
  (if locs.isEmpty then [""] else locs).map
    (fun l => if l.length == 0 then "--" else l)

/-- Modelled from the spec: `obstools.atacr.utils.update_stats` is code of
this repository that is not under `src/`; per §4.4 it "attaches station
coordinate/elevation metadata and a component tag" to a trace and returns it. -/
def update_stats (tr : Trace) (lat lon elev : Int) (c : Char) : Trace :=
  { tr with meta := some (lat, lon, elev, c) }

/-- Source lines 215–218 and 146: output path
`'DATA/' + stkey + '/' + tstamp + '.' + sta.channel + suffix + '.SAC'`. -/
def sacName (stkey : String) (sta : Station) (t1 : Nat) (suffix : String) : String :=
  "DATA/" ++ stkey ++ "/" ++ tstamp t1 ++ "." ++ sta.channel ++ suffix ++ ".SAC"

/-- Python `str.upper()` on ASCII channel codes: uppercase every character.
(Defined over the character list so that it evaluates by kernel reduction.) -/
def strUpper (s : String) : String := String.mk (s.data.map Char.toUpper)

/-- Source lines 231/332: the three-component seismic channel request string
`sta.channel.upper()+'1,'+sta.channel.upper()+'2,'+sta.channel.upper()+'Z'`. -/
def hChans (sta : Station) : String :=
  strUpper sta.channel ++ "1," ++ strUpper sta.channel ++ "2," ++ strUpper sta.channel ++ "Z"

/-- Observable actions of a run: the per-day banner print (source line 210),
a `client.get_waveforms` request (network, station, location, channel string,
start, end), and a `trace.write(path, format='sac')`. -/
inductive Event where
  | day : Nat → Event
  | fetch : String → String → String → String → Nat → Nat → Event
  | write : String → Trace → Event
deriving DecidableEq

/-- Outcome of one day window that did not raise an uncaught exception. -/
inductive DayOut where
  | skippedExisting
  | fetchFailed
  | validationFailed
  | written
deriving DecidableEq

/-- The external world: the data-center client (a `get_waveforms` oracle
keyed by the full request; `.error` models a raised exception, caught by the
script's bare `except`), and the obspy preprocessing chain
(`remove_response`/`detrend`/`filter`/`resample`), collapsed into a per-trace
failure oracle `preFail` (the chain raises iff it fails on some trace of the
stream) and a per-trace net transform `pre` (the chain preserves each trace's
component code). -/
structure World where
  fetch : String → String → String → String → Nat → Nat → Except Unit (List Trace)
  preFail : Trace → Bool
  pre : Trace → Trace

/-- The preprocessing chain's effect on one trace (component code kept). -/
def preTrace (w : World) (tr : Trace) : Trace :=
  { w.pre tr with comp := tr.comp }

/-! ## The day-loop body -/

/-- Source lines 412–416: write the pressure trace (`stp[0]`) when
`"P" in opts.channels`, then finish the day.  `stp2 = none` models the Python
name `stp` being unbound in the seismic-only arm (unreachable there because
`opts.chanP` is false). -/
def writeP (O : Opts) (stkey : String) (sta : Station) (fs : List String)
    (t1 : Nat) (evs : List Event) (stp2 : Option (List Trace)) :
    List Event × Except Unit (List String × DayOut) :=
  if O.chanP then
    match stp2.bind List.head? with
    | none => (evs, .error ())
    | some pP =>
      let fileP := sacName stkey sta t1 "H"
      let trP := update_stats pP sta.latitude sta.longitude sta.elevation 'P'
      (evs ++ [Event.write fileP trP], .ok (fs ++ [fileP], .written))
  else (evs, .ok (fs, .written))

/-- Source lines 398–416 (shared tail of the three arms): take the first
trace per required component from the preprocessed streams, attach metadata
(`utils.update_stats`), and write the SAC files: `Z` always, `1`/`2` when
`"H" in opts.channels`, the pressure trace when `"P" in opts.channels`.
A `[0]` access on an empty selection is an uncaught `IndexError`
(`Except.error`); those branches are unreachable after a passed validation. -/
def writeAll (O : Opts) (stkey : String) (sta : Station) (fs : List String)
    (t1 : Nat) (evs : List Event) (sth2 : List Trace) (stp2 : Option (List Trace)) :
    List Event × Except Unit (List String × DayOut) :=
  match (select 'Z' sth2).head? with
  | none => (evs, .error ())
  | some pZ =>
    let fileZ := sacName stkey sta t1 "Z"
    let trZ := update_stats pZ sta.latitude sta.longitude sta.elevation 'Z'
    if O.chanH then
      match (select '1' sth2).head?, (select '2' sth2).head? with
      | some p1, some p2 =>
        let file1 := sacName stkey sta t1 "1"
        let file2 := sacName stkey sta t1 "2"
        let tr1 := update_stats p1 sta.latitude sta.longitude sta.elevation '1'
        let tr2 := update_stats p2 sta.latitude sta.longitude sta.elevation '2'
        writeP O stkey sta (fs ++ [fileZ, file1, file2]) t1
          (evs ++ [Event.write fileZ trZ, Event.write file1 tr1, Event.write file2 tr2]) stp2
      | _, _ => (evs ++ [Event.write fileZ trZ], .error ())
    else
      writeP O stkey sta (fs ++ [fileZ]) t1 (evs ++ [Event.write fileZ trZ]) stp2

/-- Source lines 378–396: remove responses, detrend, filter, resample.  The
chain raises (uncaught) iff it fails on some trace of a stream; otherwise it
transforms every trace by `preTrace`.  The pressure stream is processed only
when `"P" in opts.channels`. -/
def processAndWrite (w : World) (O : Opts) (stkey : String) (sta : Station)
    (fs : List String) (t1 : Nat) (evs : List Event)
    (sth : List Trace) (stp : Option (List Trace)) :
    List Event × Except Unit (List String × DayOut) :=
  if sth.any w.preFail then (evs, .error ())
  else if O.chanP then
    match stp with
    | none => (evs, .error ())
    | some stpl =>
      if stpl.any w.preFail then (evs, .error ())
      else writeAll O stkey sta fs t1 evs (sth.map (preTrace w)) (some (stpl.map (preTrace w)))
  else writeAll O stkey sta fs t1 evs (sth.map (preTrace w)) none

/-- Source lines 220–264 plus the shared tail: the `"P" not in opts.channels`
(seismic-only) arm of the day-loop body.  A bare `except` around the client
request catches any exception there (including the `location[0]` lookup on an
empty list) and skips the day; the length checks at lines 246–264 are outside
the `try`, so a missing component (`select(...)[0]` on an empty selection) is
an uncaught `IndexError`. -/
def dayStepH (w : World) (O : Opts) (stkey : String) (sta : Station)
    (fs : List String) (t1 t2 : Nat) :
    List Event × Except Unit (List String × DayOut) :=
  let file1 := sacName stkey sta t1 "1"
  let file2 := sacName stkey sta t1 "2"
  let fileZ := sacName stkey sta t1 "Z"
  if (fileZ ∈ fs ∧ file1 ∈ fs ∧ file2 ∈ fs) ∧ O.ovr = false then
    ([Event.day t1], .ok (fs, .skippedExisting))
  else
    match sta.location.head? with
    | none => ([Event.day t1], .ok (fs, .fetchFailed))
    | some loc =>
      match w.fetch sta.network sta.station loc (hChans sta) t1 t2 with
      | .error _ =>
          ([Event.day t1, Event.fetch sta.network sta.station loc (hChans sta) t1 t2],
           .ok (fs, .fetchFailed))
      | .ok sth =>
        let evs := [Event.day t1, Event.fetch sta.network sta.station loc (hChans sta) t1 t2]
        match (select 'Z' sth).head?, (select '1' sth).head?, (select '2' sth).head? with
        | some hZ, some h1, some h2 =>
          if hZ.npts ≠ h1.npts ∨ hZ.npts ≠ h2.npts then (evs, .ok (fs, .validationFailed))
          else
            match sth.head? with
            | none => (evs, .error ())
            | some h0 =>
              if 1 < ((hZ.npts : Int) - (86400 * h0.sr : Nat)).natAbs then
                (evs, .ok (fs, .validationFailed))
              else processAndWrite w O stkey sta fs t1 evs sth none
        | _, _, _ => (evs, .error ())

/-- Source lines 266–319 plus the shared tail: the `"H" not in opts.channels`
(pressure) arm.  The seismic request asks only for the vertical channel, the
pressure request uses the wildcard `'??H'`, and the expected-length reference
is the pressure stream's first trace (line 312). -/
def dayStepP (w : World) (O : Opts) (stkey : String) (sta : Station)
    (fs : List String) (t1 t2 : Nat) :
    List Event × Except Unit (List String × DayOut) :=
  let fileZ := sacName stkey sta t1 "Z"
  let fileP := sacName stkey sta t1 "H"
  if (fileZ ∈ fs ∧ fileP ∈ fs) ∧ O.ovr = false then
    ([Event.day t1], .ok (fs, .skippedExisting))
  else
    match sta.location.head? with
    | none => ([Event.day t1], .ok (fs, .fetchFailed))
    | some loc =>
      let zChans := strUpper sta.channel ++ "Z"
      match w.fetch sta.network sta.station loc zChans t1 t2 with
      | .error _ =>
          ([Event.day t1, Event.fetch sta.network sta.station loc zChans t1 t2],
           .ok (fs, .fetchFailed))
      | .ok sth =>
        let evs1 := [Event.day t1, Event.fetch sta.network sta.station loc zChans t1 t2]
        match w.fetch sta.network sta.station loc "??H" t1 t2 with
        | .error _ =>
            (evs1 ++ [Event.fetch sta.network sta.station loc "??H" t1 t2],
             .ok (fs, .fetchFailed))
        | .ok stp =>
          let evs := evs1 ++ [Event.fetch sta.network sta.station loc "??H" t1 t2]
          match (select 'Z' sth).head?, stp.head? with
          | some hZ, some hP =>
            if hZ.npts ≠ hP.npts then (evs, .ok (fs, .validationFailed))
            else if 1 < ((hZ.npts : Int) - (86400 * hP.sr : Nat)).natAbs then
              (evs, .ok (fs, .validationFailed))
            else processAndWrite w O stkey sta fs t1 evs sth (some stp)
          | _, _ => (evs, .error ())

/-- Source lines 321–376 plus the shared tail: the default arm (both
horizontal and pressure channels requested).  The expected-length reference
here is the seismic stream's first trace (line 369). -/
def dayStepB (w : World) (O : Opts) (stkey : String) (sta : Station)
    (fs : List String) (t1 t2 : Nat) :
    List Event × Except Unit (List String × DayOut) :=
  let file1 := sacName stkey sta t1 "1"
  let file2 := sacName stkey sta t1 "2"
  let fileZ := sacName stkey sta t1 "Z"
  let fileP := sacName stkey sta t1 "H"
  if (fileZ ∈ fs ∧ file1 ∈ fs ∧ file2 ∈ fs ∧ fileP ∈ fs) ∧ O.ovr = false then
    ([Event.day t1], .ok (fs, .skippedExisting))
  else
    match sta.location.head? with
    | none => ([Event.day t1], .ok (fs, .fetchFailed))
    | some loc =>
      match w.fetch sta.network sta.station loc (hChans sta) t1 t2 with
      | .error _ =>
          ([Event.day t1, Event.fetch sta.network sta.station loc (hChans sta) t1 t2],
           .ok (fs, .fetchFailed))
      | .ok sth =>
        let evs1 := [Event.day t1, Event.fetch sta.network sta.station loc (hChans sta) t1 t2]
        match w.fetch sta.network sta.station loc "??H" t1 t2 with
        | .error _ =>
            (evs1 ++ [Event.fetch sta.network sta.station loc "??H" t1 t2],
             .ok (fs, .fetchFailed))
        | .ok stp =>
          let evs := evs1 ++ [Event.fetch sta.network sta.station loc "??H" t1 t2]
          match (select 'Z' sth).head?, (select '1' sth).head?,
                (select '2' sth).head?, stp.head? with
          | some hZ, some h1, some h2, some hP =>
            if hZ.npts ≠ h1.npts ∨ hZ.npts ≠ h2.npts ∨ hZ.npts ≠ hP.npts then
              (evs, .ok (fs, .validationFailed))
            else
              match sth.head? with
              | none => (evs, .error ())
              | some h0 =>
                if 1 < ((hZ.npts : Int) - (86400 * h0.sr : Nat)).natAbs then
                  (evs, .ok (fs, .validationFailed))
                else processAndWrite w O stkey sta fs t1 evs sth (some stp)
          | _, _, _, _ => (evs, .error ())

/-- One iteration of the `while t2 <= tend` loop body (source lines 205–419):
dispatch on the channel-set membership tests of lines 220, 266, 321. -/
def dayStep (w : World) (O : Opts) (stkey : String) (sta : Station)
    (fs : List String) (t1 t2 : Nat) :
    List Event × Except Unit (List String × DayOut) :=
  if !O.chanP then dayStepH w O stkey sta fs t1 t2
  else if !O.chanH then dayStepP w O stkey sta fs t1 t2
  else dayStepB w O stkey sta fs t1 t2

/-- The day loop, by fuel recursion: every iteration advances `t2` by 86400,
so `tend + 1 - t2` bounds the remaining iterations, and with that exact fuel
the fuel-0 base case coincides with the loop's exit condition. -/
def dayLoopAux (w : World) (O : Opts) (stkey : String) (sta : Station) :
    Nat → List String → Nat → Nat → Nat → List Event × Except Unit (List String)
  | 0, fs, _, _, _ => ([], .ok fs)
  | fuel + 1, fs, t1, t2, tend =>
    if t2 ≤ tend then
      match dayStep w O stkey sta fs t1 t2 with
      | (evs, .error _) => (evs, .error ())
      | (evs, .ok (fs', _)) =>
        let r := dayLoopAux w O stkey sta fuel fs' (t1 + 86400) (t2 + 86400) tend
        (evs ++ r.1, r.2)
    else ([], .ok fs)

/-- Source lines 197–419: the `while t2 <= tend` day loop, starting from
`t1 = tstart`, `t2 = tstart + 86400`. -/
def dayLoop (w : World) (O : Opts) (stkey : String) (sta : Station)
    (fs : List String) (t1 t2 tend : Nat) : List Event × Except Unit (List String) :=
  dayLoopAux w O stkey sta (tend + 1 - t2) fs t1 t2 tend

/-- The sequence of `[t1, t2)` windows the day loop visits (the §4.1 "day
segmenter"), with the same fuel convention as `dayLoopAux`. -/
def dayWindowsAux : Nat → Nat → Nat → Nat → List (Nat × Nat)
  | 0, _, _, _ => []
  | fuel + 1, t1, t2, tend =>
    if t2 ≤ tend then (t1, t2) :: dayWindowsAux fuel (t1 + 86400) (t2 + 86400) tend
    else []

def dayWindows (t1 t2 tend : Nat) : List (Nat × Nat) :=
  dayWindowsAux (tend + 1 - t2) t1 t2 tend

/-! ## The station loop -/

/-- Source lines 159–163: the effective search start
(`sta.startdate` unless `--start` was given). -/
def effectiveStart (O : Opts) (sta : Station) : Nat := O.startT.getD sta.startdate

/-- Source lines 164–168: the effective search end.  Note that the source
sets `tend = sta.startdate` when no `--end` override is given (line 166). -/
def effectiveEnd (O : Opts) (sta : Station) : Nat := O.endT.getD sta.startdate

/-- Source lines 142–419: processing of one station key (banner prints,
directory creation and client construction have no observable effect in this
model).  Line 170 skips the station when the effective range misses the
station's lifetime; lines 174–178 normalize the location-code list. -/
def stationStep (w : World) (O : Opts) (stkey : String) (sta : Station)
    (fs : List String) : List Event × Except Unit (List String) :=
  let tstart := effectiveStart O sta
  let tend := effectiveEnd O sta
  if sta.enddate < tstart ∨ tend < sta.startdate then ([], .ok fs)
  else
    let sta' := { sta with location := normalizeLocs sta.location }
    dayLoop w O stkey sta' fs tstart (tstart + 86400) tend

/-- The `for stkey in list(stkeys)` loop (line 140): an uncaught exception
propagates out of it and aborts the remaining stations. -/
def stationLoop (w : World) (O : Opts) :
    List (String × Station) → List String → List Event × Except Unit (List String)
  | [], fs => ([], .ok fs)
  | (stkey, sta) :: rest, fs =>
    match stationStep w O stkey sta fs with
    | (evs, .error _) => (evs, .error ())
    | (evs, .ok fs') =>
      let r := stationLoop w O rest fs'
      (evs ++ r.1, r.2)

/-- The per-mode set of output files whose joint pre-existence triggers the
skip (source lines 223, 269, 324). -/
def expectedFiles (O : Opts) (stkey : String) (sta : Station) (t1 : Nat) : List String :=
  if !O.chanP then
    [sacName stkey sta t1 "Z", sacName stkey sta t1 "1", sacName stkey sta t1 "2"]
  else if !O.chanH then
    [sacName stkey sta t1 "Z", sacName stkey sta t1 "H"]
  else
    [sacName stkey sta t1 "Z", sacName stkey sta t1 "1", sacName stkey sta t1 "2",
     sacName stkey sta t1 "H"]

/-! ## Event-log observations -/

/-- The day-banner timestamps in an event log. -/
def dayEvents (evs : List Event) : List Nat :=
  evs.filterMap (fun e => match e with | .day t => some t | _ => none)

/-- The waveform requests in an event log. -/
def fetchEvents (evs : List Event) : List Event :=
  evs.filter (fun e => match e with | .fetch _ _ _ _ _ _ => true | _ => false)

/-- The `(path, trace)` pairs written in an event log. -/
def writeEvents (evs : List Event) : List (String × Trace) :=
  evs.filterMap (fun e => match e with | .write p tr => some (p, tr) | _ => none)

/-! ## Helper lemmas: `select`, projections of the event log -/

theorem select_map_preTrace (w : World) (c : Char) (st : List Trace) :
    select c (st.map (preTrace w)) = (select c st).map (preTrace w) := by
  induction st with
  | nil => rfl
  | cons tr rest ih =>
    simp only [List.map_cons, select, List.filter_cons] at *
    by_cases h : tr.comp = c
    · simp [preTrace, h, ih]
    · simp [preTrace, h] at *
      simp [ih]

theorem dayEvents_append (l1 l2 : List Event) :
    dayEvents (l1 ++ l2) = dayEvents l1 ++ dayEvents l2 := by
  simp [dayEvents]

theorem fetchEvents_append (l1 l2 : List Event) :
    fetchEvents (l1 ++ l2) = fetchEvents l1 ++ fetchEvents l2 := by
  simp [fetchEvents]

theorem writeEvents_append (l1 l2 : List Event) :
    writeEvents (l1 ++ l2) = writeEvents l1 ++ writeEvents l2 := by
  simp [writeEvents]

/-- The write stage adds no day-banner events. -/
theorem dayEvents_writeP (O : Opts) (stkey : String) (sta : Station) (fs : List String)
    (t1 : Nat) (evs : List Event) (stp2 : Option (List Trace)) :
    dayEvents (writeP O stkey sta fs t1 evs stp2).1 = dayEvents evs := by
  unfold writeP
  split
  · split <;> simp [dayEvents]
  · rfl

theorem fetchEvents_writeP (O : Opts) (stkey : String) (sta : Station) (fs : List String)
    (t1 : Nat) (evs : List Event) (stp2 : Option (List Trace)) :
    fetchEvents (writeP O stkey sta fs t1 evs stp2).1 = fetchEvents evs := by
  unfold writeP
  split
  · split <;> simp [fetchEvents]
  · rfl

theorem dayEvents_writeAll (O : Opts) (stkey : String) (sta : Station) (fs : List String)
    (t1 : Nat) (evs : List Event) (sth2 : List Trace) (stp2 : Option (List Trace)) :
    dayEvents (writeAll O stkey sta fs t1 evs sth2 stp2).1 = dayEvents evs := by
  unfold writeAll
  split
  · rfl
  · split
    · split
      · rw [dayEvents_writeP, dayEvents_append]; simp [dayEvents]
      · simp [dayEvents]
    · rw [dayEvents_writeP, dayEvents_append]; simp [dayEvents]

theorem fetchEvents_writeAll (O : Opts) (stkey : String) (sta : Station) (fs : List String)
    (t1 : Nat) (evs : List Event) (sth2 : List Trace) (stp2 : Option (List Trace)) :
    fetchEvents (writeAll O stkey sta fs t1 evs sth2 stp2).1 = fetchEvents evs := by
  unfold writeAll
  split
  · rfl
  · split
    · split
      · rw [fetchEvents_writeP, fetchEvents_append]; simp [fetchEvents]
      · simp [fetchEvents]
    · rw [fetchEvents_writeP, fetchEvents_append]; simp [fetchEvents]

theorem dayEvents_processAndWrite (w : World) (O : Opts) (stkey : String) (sta : Station)
    (fs : List String) (t1 : Nat) (evs : List Event)
    (sth : List Trace) (stp : Option (List Trace)) :
    dayEvents (processAndWrite w O stkey sta fs t1 evs sth stp).1 = dayEvents evs := by
  unfold processAndWrite
  split
  · rfl
  · split
    · split
      · rfl
      · split
        · rfl
        · simp [dayEvents_writeAll]
    · simp [dayEvents_writeAll]

theorem fetchEvents_processAndWrite (w : World) (O : Opts) (stkey : String) (sta : Station)
    (fs : List String) (t1 : Nat) (evs : List Event)
    (sth : List Trace) (stp : Option (List Trace)) :
    fetchEvents (processAndWrite w O stkey sta fs t1 evs sth stp).1 = fetchEvents evs := by
  unfold processAndWrite
  split
  · rfl
  · split
    · split
      · rfl
      · split
        · rfl
        · simp [fetchEvents_writeAll]
    · simp [fetchEvents_writeAll]

/-! ## Helper lemmas: shape of one day iteration's log -/

/-- Every path through the seismic-only arm prints exactly one day banner. -/
theorem dayEvents_dayStepH (w : World) (O : Opts) (stkey : String) (sta : Station)
    (fs : List String) (t1 t2 : Nat) :
    dayEvents (dayStepH w O stkey sta fs t1 t2).1 = [t1] := by
  unfold dayStepH
  dsimp only
  repeat' split
  all_goals try rw [dayEvents_processAndWrite]
  all_goals simp [dayEvents]

theorem dayEvents_dayStepP (w : World) (O : Opts) (stkey : String) (sta : Station)
    (fs : List String) (t1 t2 : Nat) :
    dayEvents (dayStepP w O stkey sta fs t1 t2).1 = [t1] := by
  unfold dayStepP
  dsimp only
  repeat' split
  all_goals try rw [dayEvents_processAndWrite]
  all_goals simp [dayEvents]

theorem dayEvents_dayStepB (w : World) (O : Opts) (stkey : String) (sta : Station)
    (fs : List String) (t1 t2 : Nat) :
    dayEvents (dayStepB w O stkey sta fs t1 t2).1 = [t1] := by
  unfold dayStepB
  dsimp only
  repeat' split
  all_goals try rw [dayEvents_processAndWrite]
  all_goals simp [dayEvents]

/-- Every path through a day iteration prints exactly one day banner. -/
theorem dayEvents_dayStep (w : World) (O : Opts) (stkey : String) (sta : Station)
    (fs : List String) (t1 t2 : Nat) :
    dayEvents (dayStep w O stkey sta fs t1 t2).1 = [t1] := by
  unfold dayStep
  split
  · exact dayEvents_dayStepH ..
  · split
    · exact dayEvents_dayStepP ..
    · exact dayEvents_dayStepB ..

/-- Every request the seismic-only arm logs goes to this station's network,
station, first location code and this day's window. -/
theorem fetch_shape_dayStepH (w : World) (O : Opts) (stkey : String) (sta : Station)
    (fs : List String) (t1 t2 : Nat) :
    ∀ e ∈ fetchEvents (dayStepH w O stkey sta fs t1 t2).1,
      ∃ l ch, sta.location.head? = some l ∧
        e = Event.fetch sta.network sta.station l ch t1 t2 := by
  unfold dayStepH
  dsimp only
  repeat' split
  all_goals try rw [fetchEvents_processAndWrite]
  all_goals intro e he
  all_goals simp [fetchEvents] at he
  all_goals subst he
  all_goals exact ⟨_, _, by assumption, rfl⟩

theorem fetch_shape_dayStepP (w : World) (O : Opts) (stkey : String) (sta : Station)
    (fs : List String) (t1 t2 : Nat) :
    ∀ e ∈ fetchEvents (dayStepP w O stkey sta fs t1 t2).1,
      ∃ l ch, sta.location.head? = some l ∧
        e = Event.fetch sta.network sta.station l ch t1 t2 := by
  unfold dayStepP
  dsimp only
  repeat' split
  all_goals try rw [fetchEvents_processAndWrite]
  all_goals intro e he
  all_goals simp [fetchEvents] at he
  all_goals first
    | (subst he; exact ⟨_, _, by assumption, rfl⟩)
    | (rcases he with he | he <;> (subst he; exact ⟨_, _, by assumption, rfl⟩))

theorem fetch_shape_dayStepB (w : World) (O : Opts) (stkey : String) (sta : Station)
    (fs : List String) (t1 t2 : Nat) :
    ∀ e ∈ fetchEvents (dayStepB w O stkey sta fs t1 t2).1,
      ∃ l ch, sta.location.head? = some l ∧
        e = Event.fetch sta.network sta.station l ch t1 t2 := by
  unfold dayStepB
  dsimp only
  repeat' split
  all_goals try rw [fetchEvents_processAndWrite]
  all_goals intro e he
  all_goals simp [fetchEvents] at he
  all_goals first
    | (subst he; exact ⟨_, _, by assumption, rfl⟩)
    | (rcases he with he | he <;> (subst he; exact ⟨_, _, by assumption, rfl⟩))

theorem fetch_shape_dayStep (w : World) (O : Opts) (stkey : String) (sta : Station)
    (fs : List String) (t1 t2 : Nat) :
    ∀ e ∈ fetchEvents (dayStep w O stkey sta fs t1 t2).1,
      ∃ l ch, sta.location.head? = some l ∧
        e = Event.fetch sta.network sta.station l ch t1 t2 := by
  unfold dayStep
  split
  · exact fetch_shape_dayStepH w O stkey sta fs t1 t2
  · split
    · exact fetch_shape_dayStepP w O stkey sta fs t1 t2
    · exact fetch_shape_dayStepB w O stkey sta fs t1 t2

/-! ## Helper lemmas: write stage succeeds only with the `written` outcome -/

theorem writeP_ok {O : Opts} {stkey : String} {sta : Station} {fs : List String}
    {t1 : Nat} {evs : List Event} {stp2 : Option (List Trace)}
    {fs2 : List String} {d : DayOut}
    (h : (writeP O stkey sta fs t1 evs stp2).2 = .ok (fs2, d)) : d = .written := by
  unfold writeP at h
  try dsimp only at h
  repeat' split at h
  all_goals simp_all

theorem writeAll_ok {O : Opts} {stkey : String} {sta : Station} {fs : List String}
    {t1 : Nat} {evs : List Event} {sth2 : List Trace} {stp2 : Option (List Trace)}
    {fs2 : List String} {d : DayOut}
    (h : (writeAll O stkey sta fs t1 evs sth2 stp2).2 = .ok (fs2, d)) : d = .written := by
  unfold writeAll at h
  try dsimp only at h
  repeat' split at h
  all_goals first
    | exact writeP_ok h
    | simp_all

theorem processAndWrite_ok {w : World} {O : Opts} {stkey : String} {sta : Station}
    {fs : List String} {t1 : Nat} {evs : List Event} {sth : List Trace}
    {stp : Option (List Trace)} {fs2 : List String} {d : DayOut}
    (h : (processAndWrite w O stkey sta fs t1 evs sth stp).2 = .ok (fs2, d)) :
    d = .written := by
  unfold processAndWrite at h
  try dsimp only at h
  repeat' split at h
  all_goals first
    | exact writeAll_ok h
    | simp_all

/-! ## Helper lemmas: a non-written day leaves the filesystem unchanged -/

theorem dayStepH_ok_notWritten {w : World} {O : Opts} {stkey : String} {sta : Station}
    {fs : List String} {t1 t2 : Nat} {evs : List Event} {fs2 : List String} {d : DayOut}
    (h : dayStepH w O stkey sta fs t1 t2 = (evs, .ok (fs2, d))) (hd : d ≠ .written) :
    fs2 = fs ∧ writeEvents evs = [] := by
  unfold dayStepH at h
  try dsimp only at h
  repeat' split at h
  all_goals first
    | exact absurd (processAndWrite_ok (by rw [h])) hd
    | (obtain ⟨h1, h2, h3⟩ := by simpa using h
       subst h1 h2 h3
       simp [writeEvents])
    | exact absurd h (by simp)

theorem dayStepP_ok_notWritten {w : World} {O : Opts} {stkey : String} {sta : Station}
    {fs : List String} {t1 t2 : Nat} {evs : List Event} {fs2 : List String} {d : DayOut}
    (h : dayStepP w O stkey sta fs t1 t2 = (evs, .ok (fs2, d))) (hd : d ≠ .written) :
    fs2 = fs ∧ writeEvents evs = [] := by
  unfold dayStepP at h
  try dsimp only at h
  repeat' split at h
  all_goals first
    | exact absurd (processAndWrite_ok (by rw [h])) hd
    | (obtain ⟨h1, h2, h3⟩ := by simpa using h
       subst h1 h2 h3
       simp [writeEvents])
    | exact absurd h (by simp)

theorem dayStepB_ok_notWritten {w : World} {O : Opts} {stkey : String} {sta : Station}
    {fs : List String} {t1 t2 : Nat} {evs : List Event} {fs2 : List String} {d : DayOut}
    (h : dayStepB w O stkey sta fs t1 t2 = (evs, .ok (fs2, d))) (hd : d ≠ .written) :
    fs2 = fs ∧ writeEvents evs = [] := by
  unfold dayStepB at h
  try dsimp only at h
  repeat' split at h
  all_goals first
    | exact absurd (processAndWrite_ok (by rw [h])) hd
    | (obtain ⟨h1, h2, h3⟩ := by simpa using h
       subst h1 h2 h3
       simp [writeEvents])
    | exact absurd h (by simp)

/-- A day ending in `skippedExisting`, `fetchFailed` or `validationFailed`
leaves the filesystem unchanged and wrote no file. -/
theorem dayStep_ok_notWritten {w : World} {O : Opts} {stkey : String} {sta : Station}
    {fs : List String} {t1 t2 : Nat} {evs : List Event} {fs2 : List String} {d : DayOut}
    (h : dayStep w O stkey sta fs t1 t2 = (evs, .ok (fs2, d))) (hd : d ≠ .written) :
    fs2 = fs ∧ writeEvents evs = [] := by
  unfold dayStep at h
  split at h
  · exact dayStepH_ok_notWritten h hd
  · split at h
    · exact dayStepP_ok_notWritten h hd
    · exact dayStepB_ok_notWritten h hd


/-! ## Helper lemmas: full characterization of accepted and rejected days -/


theorem dayStepH_written (w : World) (O : Opts) (stkey : String) (sta : Station)
    (fs : List String) (t1 t2 : Nat) (loc : String) (sth : List Trace)
    (trZ tr1 tr2 tr0 : Trace)
    (hskip : ¬((sacName stkey sta t1 "Z" ∈ fs ∧ sacName stkey sta t1 "1" ∈ fs ∧
        sacName stkey sta t1 "2" ∈ fs) ∧ O.ovr = false))
    (hloc : sta.location.head? = some loc)
    (hfetch : w.fetch sta.network sta.station loc (hChans sta) t1 t2 = .ok sth)
    (hZ : (select 'Z' sth).head? = some trZ)
    (h1 : (select '1' sth).head? = some tr1)
    (h2 : (select '2' sth).head? = some tr2)
    (heq1 : trZ.npts = tr1.npts) (heq2 : trZ.npts = tr2.npts)
    (h0 : sth.head? = some tr0)
    (htol : ((trZ.npts : Int) - (86400 * tr0.sr : Nat)).natAbs ≤ 1)
    (hpre : sth.any w.preFail = false)
    (hH : O.chanH = true) (hP : O.chanP = false) :
    dayStepH w O stkey sta fs t1 t2 =
      ([Event.day t1, Event.fetch sta.network sta.station loc (hChans sta) t1 t2,
        Event.write (sacName stkey sta t1 "Z")
          (update_stats (preTrace w trZ) sta.latitude sta.longitude sta.elevation 'Z'),
        Event.write (sacName stkey sta t1 "1")
          (update_stats (preTrace w tr1) sta.latitude sta.longitude sta.elevation '1'),
        Event.write (sacName stkey sta t1 "2")
          (update_stats (preTrace w tr2) sta.latitude sta.longitude sta.elevation '2')],
       .ok (fs ++ [sacName stkey sta t1 "Z", sacName stkey sta t1 "1",
          sacName stkey sta t1 "2"], .written)) := by
  rw [dayStepH]
  rw [if_neg hskip]
  simp only [hloc, hfetch, hZ, h1, h2, h0]
  rw [if_neg (by omega)]
  rw [if_neg (by omega)]
  rw [processAndWrite]
  rw [if_neg (by simp [hpre])]
  rw [if_neg (by simp [hP])]
  unfold writeAll
  simp only [select_map_preTrace, List.head?_map, hZ, h1, h2, Option.map_some']
  simp only [hH, if_true]
  unfold writeP
  rw [if_neg (by simp [hP])]
  simp

theorem dayStepP_written (w : World) (O : Opts) (stkey : String) (sta : Station)
    (fs : List String) (t1 t2 : Nat) (loc : String) (sth stp : List Trace)
    (trZ trP : Trace)
    (hskip : ¬((sacName stkey sta t1 "Z" ∈ fs ∧ sacName stkey sta t1 "H" ∈ fs) ∧
        O.ovr = false))
    (hloc : sta.location.head? = some loc)
    (hfetchZ : w.fetch sta.network sta.station loc (strUpper sta.channel ++ "Z") t1 t2 = .ok sth)
    (hfetchP : w.fetch sta.network sta.station loc "??H" t1 t2 = .ok stp)
    (hZ : (select 'Z' sth).head? = some trZ)
    (hP : stp.head? = some trP)
    (heq : trZ.npts = trP.npts)
    (htol : ((trZ.npts : Int) - (86400 * trP.sr : Nat)).natAbs ≤ 1)
    (hpreH : sth.any w.preFail = false) (hpreP : stp.any w.preFail = false)
    (hcH : O.chanH = false) (hcP : O.chanP = true) :
    dayStepP w O stkey sta fs t1 t2 =
      ([Event.day t1,
        Event.fetch sta.network sta.station loc (strUpper sta.channel ++ "Z") t1 t2,
        Event.fetch sta.network sta.station loc "??H" t1 t2,
        Event.write (sacName stkey sta t1 "Z")
          (update_stats (preTrace w trZ) sta.latitude sta.longitude sta.elevation 'Z'),
        Event.write (sacName stkey sta t1 "H")
          (update_stats (preTrace w trP) sta.latitude sta.longitude sta.elevation 'P')],
       .ok (fs ++ [sacName stkey sta t1 "Z", sacName stkey sta t1 "H"], .written)) := by
  rw [dayStepP]
  rw [if_neg hskip]
  simp only [hloc, hfetchZ, hfetchP, hZ, hP]
  rw [if_neg (by omega)]
  rw [if_neg (by omega)]
  rw [processAndWrite]
  rw [if_neg (by simp [hpreH])]
  rw [if_pos (by simp [hcP])]
  rw [if_neg (by simp [hpreP])]
  unfold writeAll
  simp only [select_map_preTrace, List.head?_map, hZ, Option.map_some']
  simp only [hcH, if_false, Bool.false_eq_true]
  unfold writeP
  rw [if_pos (by simp [hcP])]
  simp only [Option.bind_some, List.head?_map, hP, Option.map_some']
  simp [hP]

theorem dayStepB_written (w : World) (O : Opts) (stkey : String) (sta : Station)
    (fs : List String) (t1 t2 : Nat) (loc : String) (sth stp : List Trace)
    (trZ tr1 tr2 trP tr0 : Trace)
    (hskip : ¬((sacName stkey sta t1 "Z" ∈ fs ∧ sacName stkey sta t1 "1" ∈ fs ∧
        sacName stkey sta t1 "2" ∈ fs ∧ sacName stkey sta t1 "H" ∈ fs) ∧ O.ovr = false))
    (hloc : sta.location.head? = some loc)
    (hfetchH : w.fetch sta.network sta.station loc (hChans sta) t1 t2 = .ok sth)
    (hfetchP : w.fetch sta.network sta.station loc "??H" t1 t2 = .ok stp)
    (hZ : (select 'Z' sth).head? = some trZ)
    (h1 : (select '1' sth).head? = some tr1)
    (h2 : (select '2' sth).head? = some tr2)
    (hP : stp.head? = some trP)
    (heq1 : trZ.npts = tr1.npts) (heq2 : trZ.npts = tr2.npts) (heqP : trZ.npts = trP.npts)
    (h0 : sth.head? = some tr0)
    (htol : ((trZ.npts : Int) - (86400 * tr0.sr : Nat)).natAbs ≤ 1)
    (hpreH : sth.any w.preFail = false) (hpreP : stp.any w.preFail = false)
    (hcH : O.chanH = true) (hcP : O.chanP = true) :
    dayStepB w O stkey sta fs t1 t2 =
      ([Event.day t1,
        Event.fetch sta.network sta.station loc (hChans sta) t1 t2,
        Event.fetch sta.network sta.station loc "??H" t1 t2,
        Event.write (sacName stkey sta t1 "Z")
          (update_stats (preTrace w trZ) sta.latitude sta.longitude sta.elevation 'Z'),
        Event.write (sacName stkey sta t1 "1")
          (update_stats (preTrace w tr1) sta.latitude sta.longitude sta.elevation '1'),
        Event.write (sacName stkey sta t1 "2")
          (update_stats (preTrace w tr2) sta.latitude sta.longitude sta.elevation '2'),
        Event.write (sacName stkey sta t1 "H")
          (update_stats (preTrace w trP) sta.latitude sta.longitude sta.elevation 'P')],
       .ok (fs ++ [sacName stkey sta t1 "Z", sacName stkey sta t1 "1",
          sacName stkey sta t1 "2", sacName stkey sta t1 "H"], .written)) := by
  rw [dayStepB]
  rw [if_neg hskip]
  simp only [hloc, hfetchH, hfetchP, hZ, h1, h2, hP, h0]
  rw [if_neg (by omega)]
  rw [if_neg (by omega)]
  rw [processAndWrite]
  rw [if_neg (by simp [hpreH])]
  rw [if_pos (by simp [hcP])]
  rw [if_neg (by simp [hpreP])]
  unfold writeAll
  simp only [select_map_preTrace, List.head?_map, hZ, h1, h2, Option.map_some']
  simp only [hcH, if_true]
  unfold writeP
  rw [if_pos (by simp [hcP])]
  simp only [Option.bind_some, List.head?_map, hP, Option.map_some']
  simp [hP]



theorem dayStepH_valFailed (w : World) (O : Opts) (stkey : String) (sta : Station)
    (fs : List String) (t1 t2 : Nat) (loc : String) (sth : List Trace)
    (trZ tr1 tr2 tr0 : Trace)
    (hskip : ¬((sacName stkey sta t1 "Z" ∈ fs ∧ sacName stkey sta t1 "1" ∈ fs ∧
        sacName stkey sta t1 "2" ∈ fs) ∧ O.ovr = false))
    (hloc : sta.location.head? = some loc)
    (hfetch : w.fetch sta.network sta.station loc (hChans sta) t1 t2 = .ok sth)
    (hZ : (select 'Z' sth).head? = some trZ)
    (h1 : (select '1' sth).head? = some tr1)
    (h2 : (select '2' sth).head? = some tr2)
    (heq1 : trZ.npts = tr1.npts) (heq2 : trZ.npts = tr2.npts)
    (h0 : sth.head? = some tr0)
    (htol : 1 < ((trZ.npts : Int) - (86400 * tr0.sr : Nat)).natAbs) :
    dayStepH w O stkey sta fs t1 t2 =
      ([Event.day t1, Event.fetch sta.network sta.station loc (hChans sta) t1 t2],
       .ok (fs, .validationFailed)) := by
  rw [dayStepH]
  rw [if_neg hskip]
  simp only [hloc, hfetch, hZ, h1, h2, h0]
  rw [if_neg (by omega)]
  rw [if_pos htol]

theorem dayStepP_valFailed (w : World) (O : Opts) (stkey : String) (sta : Station)
    (fs : List String) (t1 t2 : Nat) (loc : String) (sth stp : List Trace)
    (trZ trP : Trace)
    (hskip : ¬((sacName stkey sta t1 "Z" ∈ fs ∧ sacName stkey sta t1 "H" ∈ fs) ∧
        O.ovr = false))
    (hloc : sta.location.head? = some loc)
    (hfetchZ : w.fetch sta.network sta.station loc (strUpper sta.channel ++ "Z") t1 t2 = .ok sth)
    (hfetchP : w.fetch sta.network sta.station loc "??H" t1 t2 = .ok stp)
    (hZ : (select 'Z' sth).head? = some trZ)
    (hP : stp.head? = some trP)
    (heq : trZ.npts = trP.npts)
    (htol : 1 < ((trZ.npts : Int) - (86400 * trP.sr : Nat)).natAbs) :
    dayStepP w O stkey sta fs t1 t2 =
      ([Event.day t1,
        Event.fetch sta.network sta.station loc (strUpper sta.channel ++ "Z") t1 t2,
        Event.fetch sta.network sta.station loc "??H" t1 t2],
       .ok (fs, .validationFailed)) := by
  rw [dayStepP]
  rw [if_neg hskip]
  simp only [hloc, hfetchZ, hfetchP, hZ, hP]
  rw [if_neg (by omega)]
  rw [if_pos htol]
  simp

theorem dayStepB_valFailed (w : World) (O : Opts) (stkey : String) (sta : Station)
    (fs : List String) (t1 t2 : Nat) (loc : String) (sth stp : List Trace)
    (trZ tr1 tr2 trP tr0 : Trace)
    (hskip : ¬((sacName stkey sta t1 "Z" ∈ fs ∧ sacName stkey sta t1 "1" ∈ fs ∧
        sacName stkey sta t1 "2" ∈ fs ∧ sacName stkey sta t1 "H" ∈ fs) ∧ O.ovr = false))
    (hloc : sta.location.head? = some loc)
    (hfetchH : w.fetch sta.network sta.station loc (hChans sta) t1 t2 = .ok sth)
    (hfetchP : w.fetch sta.network sta.station loc "??H" t1 t2 = .ok stp)
    (hZ : (select 'Z' sth).head? = some trZ)
    (h1 : (select '1' sth).head? = some tr1)
    (h2 : (select '2' sth).head? = some tr2)
    (hP : stp.head? = some trP)
    (heq1 : trZ.npts = tr1.npts) (heq2 : trZ.npts = tr2.npts) (heqP : trZ.npts = trP.npts)
    (h0 : sth.head? = some tr0)
    (htol : 1 < ((trZ.npts : Int) - (86400 * tr0.sr : Nat)).natAbs) :
    dayStepB w O stkey sta fs t1 t2 =
      ([Event.day t1,
        Event.fetch sta.network sta.station loc (hChans sta) t1 t2,
        Event.fetch sta.network sta.station loc "??H" t1 t2],
       .ok (fs, .validationFailed)) := by
  rw [dayStepB]
  rw [if_neg hskip]
  simp only [hloc, hfetchH, hfetchP, hZ, h1, h2, hP, h0]
  rw [if_neg (by omega)]
  rw [if_pos htol]
  simp

theorem processAndWrite_pre {w : World} {O : Opts} {stkey : String} {sta : Station}
    {fs : List String} {t1 : Nat} {evs : List Event} {sth : List Trace}
    {stp : Option (List Trace)} {fs2 : List String} {d : DayOut}
    (h : (processAndWrite w O stkey sta fs t1 evs sth stp).2 = .ok (fs2, d)) :
    sth.any w.preFail = false ∧
      (∀ stpl, O.chanP = true → stp = some stpl → stpl.any w.preFail = false) := by
  unfold processAndWrite at h
  try dsimp only at h
  repeat' split at h
  all_goals simp_all



theorem dayStepH_written_inv {w : World} {O : Opts} {stkey : String} {sta : Station}
    {fs : List String} {t1 t2 : Nat} {evs : List Event} {fs2 : List String}
    (h : dayStepH w O stkey sta fs t1 t2 = (evs, .ok (fs2, .written))) :
    ∃ loc sth trZ tr1 tr2 tr0,
      sta.location.head? = some loc ∧
      w.fetch sta.network sta.station loc (hChans sta) t1 t2 = .ok sth ∧
      (select 'Z' sth).head? = some trZ ∧
      (select '1' sth).head? = some tr1 ∧
      (select '2' sth).head? = some tr2 ∧
      trZ.npts = tr1.npts ∧ trZ.npts = tr2.npts ∧
      sth.head? = some tr0 ∧
      ((trZ.npts : Int) - (86400 * tr0.sr : Nat)).natAbs ≤ 1 ∧
      sth.any w.preFail = false := by
  unfold dayStepH at h
  try dsimp only at h
  repeat' split at h
  all_goals try (exfalso; simp at h; done)
  exact ⟨_, _, _, _, _, _, by assumption, by assumption, by assumption, by assumption,
    by assumption, by tauto, by tauto, by assumption, by omega,
    (processAndWrite_pre (by rw [h])).1⟩

theorem dayStepP_written_inv {w : World} {O : Opts} {stkey : String} {sta : Station}
    {fs : List String} {t1 t2 : Nat} {evs : List Event} {fs2 : List String}
    (hcP : O.chanP = true)
    (h : dayStepP w O stkey sta fs t1 t2 = (evs, .ok (fs2, .written))) :
    ∃ loc sth stp trZ trP,
      sta.location.head? = some loc ∧
      w.fetch sta.network sta.station loc (strUpper sta.channel ++ "Z") t1 t2 = .ok sth ∧
      w.fetch sta.network sta.station loc "??H" t1 t2 = .ok stp ∧
      (select 'Z' sth).head? = some trZ ∧
      stp.head? = some trP ∧
      trZ.npts = trP.npts ∧
      ((trZ.npts : Int) - (86400 * trP.sr : Nat)).natAbs ≤ 1 ∧
      sth.any w.preFail = false ∧ stp.any w.preFail = false := by
  unfold dayStepP at h
  try dsimp only at h
  repeat' split at h
  all_goals try (exfalso; simp at h; done)
  exact ⟨_, _, _, _, _, by assumption, by assumption, by assumption, by assumption,
    by assumption, by tauto, by omega,
    (processAndWrite_pre (by rw [h])).1,
    (processAndWrite_pre (by rw [h])).2 _ hcP rfl⟩

theorem dayStepB_written_inv {w : World} {O : Opts} {stkey : String} {sta : Station}
    {fs : List String} {t1 t2 : Nat} {evs : List Event} {fs2 : List String}
    (hcP : O.chanP = true)
    (h : dayStepB w O stkey sta fs t1 t2 = (evs, .ok (fs2, .written))) :
    ∃ loc sth stp trZ tr1 tr2 trP tr0,
      sta.location.head? = some loc ∧
      w.fetch sta.network sta.station loc (hChans sta) t1 t2 = .ok sth ∧
      w.fetch sta.network sta.station loc "??H" t1 t2 = .ok stp ∧
      (select 'Z' sth).head? = some trZ ∧
      (select '1' sth).head? = some tr1 ∧
      (select '2' sth).head? = some tr2 ∧
      stp.head? = some trP ∧
      trZ.npts = tr1.npts ∧ trZ.npts = tr2.npts ∧ trZ.npts = trP.npts ∧
      sth.head? = some tr0 ∧
      ((trZ.npts : Int) - (86400 * tr0.sr : Nat)).natAbs ≤ 1 ∧
      sth.any w.preFail = false ∧ stp.any w.preFail = false := by
  unfold dayStepB at h
  try dsimp only at h
  repeat' split at h
  all_goals try (exfalso; simp at h; done)
  exact ⟨_, _, _, _, _, _, _, _, by assumption, by assumption, by assumption, by assumption,
    by assumption, by assumption, by assumption, by tauto, by tauto, by tauto,
    by assumption, by omega,
    (processAndWrite_pre (by rw [h])).1,
    (processAndWrite_pre (by rw [h])).2 _ hcP rfl⟩



/-! ## Helper lemmas: the day loop and the station loop -/


theorem dayLoopAux_congr (w : World) (O : Opts) (stkey : String) (sta : Station) :
    ∀ m n fs t1 t2 tend, tend + 1 - t2 ≤ m → tend + 1 - t2 ≤ n →
      dayLoopAux w O stkey sta m fs t1 t2 tend = dayLoopAux w O stkey sta n fs t1 t2 tend := by
  intro m
  induction m with
  | zero =>
    intro n fs t1 t2 tend hm hn
    have hgt : ¬t2 ≤ tend := by omega
    cases n with
    | zero => rfl
    | succ k => simp [dayLoopAux, hgt]
  | succ m ih =>
    intro n fs t1 t2 tend hm hn
    by_cases hle : t2 ≤ tend
    · cases n with
      | zero => omega
      | succ k =>
        simp only [dayLoopAux, hle, if_true]
        rcases hds : dayStep w O stkey sta fs t1 t2 with ⟨evs, r⟩
        cases r with
        | error e => rfl
        | ok p =>
          rcases p with ⟨fs1, d⟩
          have hrec := ih k fs1 (t1 + 86400) (t2 + 86400) tend (by omega) (by omega)
          simp [hrec]
    · have l1 : dayLoopAux w O stkey sta (m + 1) fs t1 t2 tend = ([], .ok fs) := by
        simp [dayLoopAux, hle]
      have l2 : dayLoopAux w O stkey sta n fs t1 t2 tend = ([], .ok fs) := by
        cases n with
        | zero => rfl
        | succ k => simp [dayLoopAux, hle]
      rw [l1, l2]

/-- The `while t2 <= tend` loop unfolds one iteration at a time. -/
theorem dayLoop_unfold (w : World) (O : Opts) (stkey : String) (sta : Station)
    (fs : List String) (t1 t2 tend : Nat) :
    dayLoop w O stkey sta fs t1 t2 tend =
      if t2 ≤ tend then
        match dayStep w O stkey sta fs t1 t2 with
        | (evs, .error _) => (evs, .error ())
        | (evs, .ok (fs2, _)) =>
          (evs ++ (dayLoop w O stkey sta fs2 (t1 + 86400) (t2 + 86400) tend).1,
           (dayLoop w O stkey sta fs2 (t1 + 86400) (t2 + 86400) tend).2)
      else ([], .ok fs) := by
  unfold dayLoop
  by_cases hle : t2 ≤ tend
  · have h1 : tend + 1 - t2 = (tend - t2) + 1 := by omega
    rw [h1, dayLoopAux.eq_2, if_pos hle, if_pos hle]
    rcases hds : dayStep w O stkey sta fs t1 t2 with ⟨evs, r⟩
    cases r with
    | error e => rfl
    | ok p =>
      rcases p with ⟨fs1, d⟩
      have hc := dayLoopAux_congr w O stkey sta (tend - t2) (tend + 1 - (t2 + 86400))
        fs1 (t1 + 86400) (t2 + 86400) tend (by omega) (by omega)
      simp [hc]
  · have h0 : tend + 1 - t2 = 0 := by omega
    rw [h0, if_neg hle]
    rfl



/-- In a run with no uncaught exception, the day banners are exactly the
window starts of the day segmenter (same fuel on both sides). -/
theorem dayEvents_dayLoopAux (w : World) (O : Opts) (stkey : String) (sta : Station) :
    ∀ fuel fs t1 t2 tend fsOut,
      (dayLoopAux w O stkey sta fuel fs t1 t2 tend).2 = .ok fsOut →
      dayEvents (dayLoopAux w O stkey sta fuel fs t1 t2 tend).1 =
        (dayWindowsAux fuel t1 t2 tend).map Prod.fst := by
  intro fuel
  induction fuel with
  | zero =>
    intro fs t1 t2 tend fsOut h
    simp [dayLoopAux.eq_1, dayWindowsAux, dayEvents]
  | succ n ih =>
    intro fs t1 t2 tend fsOut h
    rw [dayLoopAux.eq_2] at h ⊢
    rw [dayWindowsAux]
    by_cases hle : t2 ≤ tend
    · rw [if_pos hle] at h ⊢
      rw [if_pos hle]
      rcases hds : dayStep w O stkey sta fs t1 t2 with ⟨evs, r⟩
      rw [hds] at h
      cases r with
      | error e => simp at h
      | ok p =>
        rcases p with ⟨fs1, d⟩
        simp only [] at h ⊢
        rw [dayEvents_append]
        have hevs : dayEvents evs = [t1] := by
          have hh := dayEvents_dayStep w O stkey sta fs t1 t2
          rw [hds] at hh
          exact hh
        rw [hevs, ih fs1 (t1 + 86400) (t2 + 86400) tend fsOut h]
        simp
    · rw [if_neg hle] at h ⊢
      rw [if_neg hle]
      simp [dayEvents]

/-- Every request in a station's day loop goes to the station's network,
station code and first location code. -/
theorem fetch_shape_dayLoopAux (w : World) (O : Opts) (stkey : String) (sta : Station) :
    ∀ fuel fs t1 t2 tend,
      ∀ e ∈ fetchEvents (dayLoopAux w O stkey sta fuel fs t1 t2 tend).1,
        ∃ l ch a b, sta.location.head? = some l ∧
          e = Event.fetch sta.network sta.station l ch a b := by
  intro fuel
  induction fuel with
  | zero =>
    intro fs t1 t2 tend e he
    simp [dayLoopAux.eq_1, fetchEvents] at he
  | succ n ih =>
    intro fs t1 t2 tend e he
    rw [dayLoopAux.eq_2] at he
    by_cases hle : t2 ≤ tend
    · rw [if_pos hle] at he
      rcases hds : dayStep w O stkey sta fs t1 t2 with ⟨evs, r⟩
      rw [hds] at he
      have hevs : ∀ e ∈ fetchEvents evs,
          ∃ l ch, sta.location.head? = some l ∧
            e = Event.fetch sta.network sta.station l ch t1 t2 := by
        have hh := fetch_shape_dayStep w O stkey sta fs t1 t2
        rw [hds] at hh
        exact hh
      cases r with
      | error err =>
        obtain ⟨l, ch, hl, hE⟩ := hevs e he
        exact ⟨l, ch, t1, t2, hl, hE⟩
      | ok p =>
        rcases p with ⟨fs1, d⟩
        simp only [] at he
        rw [fetchEvents_append, List.mem_append] at he
        rcases he with he | he
        · obtain ⟨l, ch, hl, hE⟩ := hevs e he
          exact ⟨l, ch, t1, t2, hl, hE⟩
        · exact ih fs1 (t1 + 86400) (t2 + 86400) tend e he
    · rw [if_neg hle] at he
      simp [fetchEvents] at he

/-- Shape of the day segmenter: the i-th window is
`[tstart + i days, tstart + (i+1) days)` while its end fits in the range. -/
theorem dayWindowsAux_get :
    ∀ fuel t1 t2 tend, tend + 1 - t2 ≤ fuel → ∀ i,
      (dayWindowsAux fuel t1 t2 tend)[i]? =
        if t2 + 86400 * i ≤ tend then some (t1 + 86400 * i, t2 + 86400 * i) else none := by
  intro fuel
  induction fuel with
  | zero =>
    intro t1 t2 tend hf i
    rw [dayWindowsAux]
    rw [if_neg (by omega)]
    simp
  | succ n ih =>
    intro t1 t2 tend hf i
    rw [dayWindowsAux]
    by_cases hle : t2 ≤ tend
    · rw [if_pos hle]
      cases i with
      | zero =>
        rw [if_pos (by omega)]
        simp
      | succ j =>
        simp only [List.getElem?_cons_succ]
        rw [ih (t1 + 86400) (t2 + 86400) tend (by omega) j]
        have e1 : t1 + 86400 + 86400 * j = t1 + 86400 * (j + 1) := by ring
        have e2 : t2 + 86400 + 86400 * j = t2 + 86400 * (j + 1) := by ring
        rw [e1, e2]
    · rw [if_neg hle]
      rw [if_neg (by omega)]
      simp

/-- The normalized location list is never empty. -/
theorem normalizeLocs_head (locs : List String) :
    (normalizeLocs locs).head? = some ((normalizeLocs locs).headD "") := by
  unfold normalizeLocs
  cases locs <;> simp



/-- An uncaught exception in one station's run aborts the whole station loop. -/
theorem stationLoop_cons_error {w : World} {O : Opts} {stkey : String} {sta : Station}
    {rest : List (String × Station)} {fs : List String} {evs : List Event} {e : Unit}
    (h : stationStep w O stkey sta fs = (evs, .error e)) :
    stationLoop w O ((stkey, sta) :: rest) fs = (evs, .error ()) := by
  unfold stationLoop
  rw [h]

/-- Lines 223/269/324: when all expected files are on disk and the overwrite
flag is off, the day is skipped with no request. -/
theorem dayStep_skip (w : World) (O : Opts) (stkey : String) (sta : Station)
    (fs : List String) (t1 t2 : Nat)
    (hovr : O.ovr = false)
    (hex : ∀ f ∈ expectedFiles O stkey sta t1, f ∈ fs) :
    dayStep w O stkey sta fs t1 t2 = ([Event.day t1], .ok (fs, .skippedExisting)) := by
  unfold dayStep
  split
  next hcp =>
    have hx : sacName stkey sta t1 "Z" ∈ fs ∧ sacName stkey sta t1 "1" ∈ fs ∧
        sacName stkey sta t1 "2" ∈ fs := by
      refine ⟨?_, ?_, ?_⟩ <;> apply hex <;> simp [expectedFiles, hcp]
    rw [dayStepH]
    dsimp only
    rw [if_pos ⟨hx, hovr⟩]
  next hcp =>
    split
    next hch =>
      have hx : sacName stkey sta t1 "Z" ∈ fs ∧ sacName stkey sta t1 "H" ∈ fs := by
        refine ⟨?_, ?_⟩ <;> apply hex <;> simp [expectedFiles, hcp, hch]
      rw [dayStepP]
      dsimp only
      rw [if_pos ⟨hx, hovr⟩]
    next hch =>
      have hx : sacName stkey sta t1 "Z" ∈ fs ∧ sacName stkey sta t1 "1" ∈ fs ∧
          sacName stkey sta t1 "2" ∈ fs ∧ sacName stkey sta t1 "H" ∈ fs := by
        refine ⟨?_, ?_, ?_, ?_⟩ <;> apply hex <;> simp [expectedFiles, hcp, hch]
      rw [dayStepB]
      dsimp only
      rw [if_pos ⟨hx, hovr⟩]

/-- When the skip does not fire, the seismic-only arm issues exactly one
request, for the `{ch}1,{ch}2,{ch}Z` channel string. -/
theorem fetchEvents_dayStepH_nskip (w : World) (O : Opts) (stkey : String) (sta : Station)
    (fs : List String) (t1 t2 : Nat) (loc : String)
    (hsk : ¬((sacName stkey sta t1 "Z" ∈ fs ∧ sacName stkey sta t1 "1" ∈ fs ∧
        sacName stkey sta t1 "2" ∈ fs) ∧ O.ovr = false))
    (hloc : sta.location.head? = some loc) :
    fetchEvents (dayStepH w O stkey sta fs t1 t2).1 =
      [Event.fetch sta.network sta.station loc (hChans sta) t1 t2] := by
  rw [dayStepH]
  dsimp only
  rw [if_neg hsk]
  simp only [hloc]
  repeat' split
  all_goals try rw [fetchEvents_processAndWrite]
  all_goals simp [fetchEvents]

theorem fetchEvents_head_dayStepP_nskip (w : World) (O : Opts) (stkey : String)
    (sta : Station) (fs : List String) (t1 t2 : Nat) (loc : String)
    (hsk : ¬((sacName stkey sta t1 "Z" ∈ fs ∧ sacName stkey sta t1 "H" ∈ fs) ∧
        O.ovr = false))
    (hloc : sta.location.head? = some loc) :
    (fetchEvents (dayStepP w O stkey sta fs t1 t2).1).head? =
      some (Event.fetch sta.network sta.station loc (strUpper sta.channel ++ "Z") t1 t2) := by
  rw [dayStepP]
  dsimp only
  rw [if_neg hsk]
  simp only [hloc]
  repeat' split
  all_goals try rw [fetchEvents_processAndWrite]
  all_goals simp [fetchEvents]

theorem fetchEvents_head_dayStepB_nskip (w : World) (O : Opts) (stkey : String)
    (sta : Station) (fs : List String) (t1 t2 : Nat) (loc : String)
    (hsk : ¬((sacName stkey sta t1 "Z" ∈ fs ∧ sacName stkey sta t1 "1" ∈ fs ∧
        sacName stkey sta t1 "2" ∈ fs ∧ sacName stkey sta t1 "H" ∈ fs) ∧ O.ovr = false))
    (hloc : sta.location.head? = some loc) :
    (fetchEvents (dayStepB w O stkey sta fs t1 t2).1).head? =
      some (Event.fetch sta.network sta.station loc (hChans sta) t1 t2) := by
  rw [dayStepB]
  dsimp only
  rw [if_neg hsk]
  simp only [hloc]
  repeat' split
  all_goals try rw [fetchEvents_processAndWrite]
  all_goals simp [fetchEvents]

/-- Accepted day whose preprocessing chain raises: the error is uncaught. -/
theorem dayStepH_preFail (w : World) (O : Opts) (stkey : String) (sta : Station)
    (fs : List String) (t1 t2 : Nat) (loc : String) (sth : List Trace)
    (trZ tr1 tr2 tr0 : Trace)
    (hskip : ¬((sacName stkey sta t1 "Z" ∈ fs ∧ sacName stkey sta t1 "1" ∈ fs ∧
        sacName stkey sta t1 "2" ∈ fs) ∧ O.ovr = false))
    (hloc : sta.location.head? = some loc)
    (hfetch : w.fetch sta.network sta.station loc (hChans sta) t1 t2 = .ok sth)
    (hZ : (select 'Z' sth).head? = some trZ)
    (h1 : (select '1' sth).head? = some tr1)
    (h2 : (select '2' sth).head? = some tr2)
    (heq1 : trZ.npts = tr1.npts) (heq2 : trZ.npts = tr2.npts)
    (h0 : sth.head? = some tr0)
    (htol : ((trZ.npts : Int) - (86400 * tr0.sr : Nat)).natAbs ≤ 1)
    (hpre : sth.any w.preFail = true) :
    dayStepH w O stkey sta fs t1 t2 =
      ([Event.day t1, Event.fetch sta.network sta.station loc (hChans sta) t1 t2],
       .error ()) := by
  rw [dayStepH]
  rw [if_neg hskip]
  simp only [hloc, hfetch, hZ, h1, h2, h0]
  rw [if_neg (by omega)]
  rw [if_neg (by omega)]
  rw [processAndWrite]
  rw [if_pos (by simp [hpre])]

/-- In the default (both) arm, an exception in the seismic request is caught:
the day is given up with the filesystem unchanged. -/
theorem dayStepB_fetchH_err (w : World) (O : Opts) (stkey : String) (sta : Station)
    (fs : List String) (t1 t2 : Nat) (loc : String) (e : Unit)
    (hsk : ¬((sacName stkey sta t1 "Z" ∈ fs ∧ sacName stkey sta t1 "1" ∈ fs ∧
        sacName stkey sta t1 "2" ∈ fs ∧ sacName stkey sta t1 "H" ∈ fs) ∧ O.ovr = false))
    (hloc : sta.location.head? = some loc)
    (herr : w.fetch sta.network sta.station loc (hChans sta) t1 t2 = .error e) :
    dayStepB w O stkey sta fs t1 t2 =
      ([Event.day t1, Event.fetch sta.network sta.station loc (hChans sta) t1 t2],
       .ok (fs, .fetchFailed)) := by
  rw [dayStepB]
  dsimp only
  rw [if_neg hsk]
  simp only [hloc, herr]

/-- In the default (both) arm, an exception in the pressure request is caught:
the day is given up with the filesystem unchanged. -/
theorem dayStepB_fetchP_err (w : World) (O : Opts) (stkey : String) (sta : Station)
    (fs : List String) (t1 t2 : Nat) (loc : String) (sth : List Trace) (e : Unit)
    (hsk : ¬((sacName stkey sta t1 "Z" ∈ fs ∧ sacName stkey sta t1 "1" ∈ fs ∧
        sacName stkey sta t1 "2" ∈ fs ∧ sacName stkey sta t1 "H" ∈ fs) ∧ O.ovr = false))
    (hloc : sta.location.head? = some loc)
    (hok : w.fetch sta.network sta.station loc (hChans sta) t1 t2 = .ok sth)
    (herr : w.fetch sta.network sta.station loc "??H" t1 t2 = .error e) :
    dayStepB w O stkey sta fs t1 t2 =
      ([Event.day t1, Event.fetch sta.network sta.station loc (hChans sta) t1 t2,
        Event.fetch sta.network sta.station loc "??H" t1 t2],
       .ok (fs, .fetchFailed)) := by
  rw [dayStepB]
  dsimp only
  rw [if_neg hsk]
  simp only [hloc, hok, herr]
  simp

/-- A station whose effective search range misses its `[startdate, enddate]`
lifetime is skipped without any observable action. -/
theorem stationStep_out_of_range (w : World) (O : Opts) (stkey : String) (sta : Station)
    (fs : List String)
    (hse : sta.startdate ≤ sta.enddate)
    (hni : min (effectiveEnd O sta) sta.enddate < max (effectiveStart O sta) sta.startdate) :
    stationStep w O stkey sta fs = ([], .ok fs) := by
  unfold stationStep
  dsimp only
  by_cases hc : sta.enddate < effectiveStart O sta ∨ effectiveEnd O sta < sta.startdate
  · rw [if_pos hc]
  · rw [if_neg hc]
    have h0 : effectiveEnd O sta + 1 - (effectiveStart O sta + 86400) = 0 := by omega
    unfold dayLoop
    rw [h0]
    rfl

/-- Every request a station's run issues uses the first (normalized) location
code of that station. -/
theorem fetch_shape_stationStep (w : World) (O : Opts) (stkey : String) (sta : Station)
    (fs : List String) :
    ∀ e ∈ fetchEvents (stationStep w O stkey sta fs).1,
      ∃ ch a b, e = Event.fetch sta.network sta.station
        ((normalizeLocs sta.location).headD "") ch a b := by
  unfold stationStep
  dsimp only
  split
  · simp [fetchEvents]
  · intro e he
    unfold dayLoop at he
    obtain ⟨l, ch, a, b, hl, hE⟩ := fetch_shape_dayLoopAux w O stkey
      { sta with location := normalizeLocs sta.location } _ _ _ _ _ e he
    have hl2 : (normalizeLocs sta.location).head? =
        some ((normalizeLocs sta.location).headD "") := normalizeLocs_head sta.location
    have : l = (normalizeLocs sta.location).headD "" := by
      have := hl.symm.trans hl2
      exact (Option.some.injEq _ _).mp this
    subst this
    exact ⟨ch, a, b, hE⟩



/-! ## Helper lemmas: dispatch, file names, write provenance -/


theorem dayStep_eq_H {O : Opts} (w : World) (stkey : String) (sta : Station)
    (fs : List String) (t1 t2 : Nat) (hP : O.chanP = false) :
    dayStep w O stkey sta fs t1 t2 = dayStepH w O stkey sta fs t1 t2 := by
  simp [dayStep, hP]

theorem dayStep_eq_P {O : Opts} (w : World) (stkey : String) (sta : Station)
    (fs : List String) (t1 t2 : Nat) (hP : O.chanP = true) (hH : O.chanH = false) :
    dayStep w O stkey sta fs t1 t2 = dayStepP w O stkey sta fs t1 t2 := by
  simp [dayStep, hP, hH]

theorem dayStep_eq_B {O : Opts} (w : World) (stkey : String) (sta : Station)
    (fs : List String) (t1 t2 : Nat) (hP : O.chanP = true) (hH : O.chanH = true) :
    dayStep w O stkey sta fs t1 t2 = dayStepB w O stkey sta fs t1 t2 := by
  simp [dayStep, hP, hH]

theorem head?_some_cons {α : Type} {l : List α} {a : α} (h : l.head? = some a) :
    ∃ t, l = a :: t := by
  cases l <;> simp_all

/-- The output file name spelled out: the timestamp already ends in a dot and
line 215 inserts another, so the name carries a double dot between the Julian
day and the channel prefix. -/
theorem sacName_eq (stkey : String) (sta : Station) (t1 : Nat) (suffix : String) :
    sacName stkey sta t1 suffix =
      "DATA/" ++ stkey ++ "/" ++ zfill 4 (toString (year t1)) ++ "." ++
        zfill 3 (toString (julday t1)) ++ ".." ++ sta.channel ++ suffix ++ ".SAC" := by
  rw [show (".." : String) = "." ++ "." from rfl]
  unfold sacName tstamp
  simp [String.append_assoc]

/-- A successful fetch that lacks the `1` component: the `select('1')[0]`
lookup at line 248 raises an uncaught `IndexError`. -/
theorem dayStepH_missing (w : World) (O : Opts) (stkey : String) (sta : Station)
    (fs : List String) (t1 t2 : Nat) (loc : String) (sth : List Trace)
    (hsk : ¬((sacName stkey sta t1 "Z" ∈ fs ∧ sacName stkey sta t1 "1" ∈ fs ∧
        sacName stkey sta t1 "2" ∈ fs) ∧ O.ovr = false))
    (hloc : sta.location.head? = some loc)
    (hfetch : w.fetch sta.network sta.station loc (hChans sta) t1 t2 = .ok sth)
    (hmiss : select '1' sth = []) :
    dayStepH w O stkey sta fs t1 t2 =
      ([Event.day t1, Event.fetch sta.network sta.station loc (hChans sta) t1 t2],
       .error ()) := by
  rw [dayStepH]
  dsimp only
  rw [if_neg hsk]
  simp only [hloc, hfetch, hmiss]
  rcases hZo : (select 'Z' sth).head? with _ | trZ <;>
    rcases h2o : (select '2' sth).head? with _ | tr2 <;> simp



theorem writes_shape_writeP (O : Opts) (stkey : String) (sta : Station) (fs : List String)
    (t1 : Nat) (evs : List Event) (stp2 : Option (List Trace)) :
    ∀ p tr, (p, tr) ∈ writeEvents (writeP O stkey sta fs t1 evs stp2).1 →
      (p, tr) ∈ writeEvents evs ∨
      ∃ stpl hd, stp2 = some stpl ∧ stpl.head? = some hd ∧
        tr = update_stats hd sta.latitude sta.longitude sta.elevation 'P' := by
  unfold writeP
  split
  · split
    · intro p tr hm
      exact Or.inl hm
    · rename_i pP heq
      intro p tr hm
      rw [writeEvents_append, List.mem_append] at hm
      rcases hm with hm | hm
      · exact Or.inl hm
      · right
        simp [writeEvents] at hm
        rcases Option.bind_eq_some.mp heq with ⟨stpl, hs, hh⟩
        exact ⟨stpl, pP, hs, hh, hm.2⟩
  · intro p tr hm
    exact Or.inl hm



theorem writes_shape_writeAll (O : Opts) (stkey : String) (sta : Station)
    (fs : List String) (t1 : Nat) (evs : List Event) (sth2 : List Trace)
    (stp2 : Option (List Trace)) :
    ∀ p tr, (p, tr) ∈ writeEvents (writeAll O stkey sta fs t1 evs sth2 stp2).1 →
      (p, tr) ∈ writeEvents evs ∨
      (∃ c hd, (select c sth2).head? = some hd ∧
        tr = update_stats hd sta.latitude sta.longitude sta.elevation c) ∨
      (∃ stpl hd, stp2 = some stpl ∧ stpl.head? = some hd ∧
        tr = update_stats hd sta.latitude sta.longitude sta.elevation 'P') := by
  unfold writeAll
  split
  · intro p tr hm
    exact Or.inl hm
  · rename_i pZ heqZ
    dsimp only
    split
    · split
      · rename_i p1 p2 heq1 heq2
        intro p tr hm
        rcases writes_shape_writeP O stkey sta _ t1 _ stp2 p tr hm with hm2 | hm2
        · rw [writeEvents_append, List.mem_append] at hm2
          rcases hm2 with hm3 | hm3
          · exact Or.inl hm3
          · simp [writeEvents] at hm3
            rcases hm3 with ⟨_, h⟩ | ⟨_, h⟩ | ⟨_, h⟩
            · exact Or.inr (Or.inl ⟨'Z', pZ, heqZ, h⟩)
            · exact Or.inr (Or.inl ⟨'1', p1, heq1, h⟩)
            · exact Or.inr (Or.inl ⟨'2', p2, heq2, h⟩)
        · exact Or.inr (Or.inr hm2)
      · intro p tr hm
        rw [writeEvents_append, List.mem_append] at hm
        rcases hm with hm | hm
        · exact Or.inl hm
        · simp [writeEvents] at hm
          exact Or.inr (Or.inl ⟨'Z', pZ, heqZ, hm.2⟩)
    · intro p tr hm
      rcases writes_shape_writeP O stkey sta _ t1 _ stp2 p tr hm with hm2 | hm2
      · rw [writeEvents_append, List.mem_append] at hm2
        rcases hm2 with hm3 | hm3
        · exact Or.inl hm3
        · simp [writeEvents] at hm3
          exact Or.inr (Or.inl ⟨'Z', pZ, heqZ, hm3.2⟩)
      · exact Or.inr (Or.inr hm2)

theorem writes_shape_processAndWrite (w : World) (O : Opts) (stkey : String)
    (sta : Station) (fs : List String) (t1 : Nat) (evs : List Event)
    (sth : List Trace) (stp : Option (List Trace)) :
    ∀ p tr, (p, tr) ∈ writeEvents (processAndWrite w O stkey sta fs t1 evs sth stp).1 →
      (p, tr) ∈ writeEvents evs ∨
      (∃ c hd, (select c sth).head? = some hd ∧
        tr = update_stats (preTrace w hd) sta.latitude sta.longitude sta.elevation c) ∨
      (∃ stpl hd, stp = some stpl ∧ stpl.head? = some hd ∧
        tr = update_stats (preTrace w hd) sta.latitude sta.longitude sta.elevation 'P') := by
  intro p tr hm
  unfold processAndWrite at hm
  by_cases hpreH : sth.any w.preFail
  · rw [if_pos hpreH] at hm
    exact Or.inl hm
  · rw [if_neg hpreH] at hm
    by_cases hcP : O.chanP
    · rw [if_pos hcP] at hm
      cases stp with
      | none => exact Or.inl hm
      | some stpl =>
        try dsimp only at hm
        by_cases hpreP : stpl.any w.preFail
        · rw [if_pos hpreP] at hm
          exact Or.inl hm
        · rw [if_neg hpreP] at hm
          rcases writes_shape_writeAll O stkey sta fs t1 evs _ _ p tr hm with h | h | h
          · exact Or.inl h
          · obtain ⟨c, hd, hh, he⟩ := h
            rw [select_map_preTrace, List.head?_map] at hh
            rcases Option.map_eq_some'.mp hh with ⟨hd0, hh0, hpre0⟩
            exact Or.inr (Or.inl ⟨c, hd0, hh0, by rw [← hpre0] at he; exact he⟩)
          · obtain ⟨stpl2, hd, hs, hh, he⟩ := h
            have hs3 : stpl2 = stpl.map (preTrace w) := by simpa using hs.symm
            rw [hs3, List.head?_map] at hh
            rcases Option.map_eq_some'.mp hh with ⟨hd0, hh0, hpre0⟩
            exact Or.inr (Or.inr ⟨stpl, hd0, rfl, hh0, by rw [← hpre0] at he; exact he⟩)
    · rw [if_neg hcP] at hm
      rcases writes_shape_writeAll O stkey sta fs t1 evs _ _ p tr hm with h | h | h
      · exact Or.inl h
      · obtain ⟨c, hd, hh, he⟩ := h
        rw [select_map_preTrace, List.head?_map] at hh
        rcases Option.map_eq_some'.mp hh with ⟨hd0, hh0, hpre0⟩
        exact Or.inr (Or.inl ⟨c, hd0, hh0, by rw [← hpre0] at he; exact he⟩)
      · obtain ⟨stpl2, hd, hs, hh, he⟩ := h
        simp at hs



theorem writes_shape_dayStepH (w : World) (O : Opts) (stkey : String) (sta : Station)
    (fs : List String) (t1 t2 : Nat) :
    ∀ p tr, (p, tr) ∈ writeEvents (dayStepH w O stkey sta fs t1 t2).1 →
      ∃ loc sth c hd,
        sta.location.head? = some loc ∧
        w.fetch sta.network sta.station loc (hChans sta) t1 t2 = .ok sth ∧
        (select c sth).head? = some hd ∧
        tr = update_stats (preTrace w hd) sta.latitude sta.longitude sta.elevation c := by
  unfold dayStepH
  dsimp only
  repeat' split
  all_goals intro p tr hm
  all_goals try (simp [writeEvents] at hm; done)
  all_goals rcases writes_shape_processAndWrite w O stkey sta fs t1 _ _ _ p tr hm
    with h | h | h
  all_goals first
    | (simp [writeEvents] at h; done)
    | (obtain ⟨c, hd, hh, he⟩ := h
       exact ⟨_, _, c, hd, by assumption, by assumption, hh, he⟩)
    | (obtain ⟨stpl, hd, hs, _, _⟩ := h
       simp at hs)

theorem writes_shape_dayStepP (w : World) (O : Opts) (stkey : String) (sta : Station)
    (fs : List String) (t1 t2 : Nat) :
    ∀ p tr, (p, tr) ∈ writeEvents (dayStepP w O stkey sta fs t1 t2).1 →
      ∃ loc, sta.location.head? = some loc ∧
        ((∃ sth c hd,
            w.fetch sta.network sta.station loc (strUpper sta.channel ++ "Z") t1 t2 = .ok sth ∧
            (select c sth).head? = some hd ∧
            tr = update_stats (preTrace w hd) sta.latitude sta.longitude sta.elevation c) ∨
         (∃ stp hd,
            w.fetch sta.network sta.station loc "??H" t1 t2 = .ok stp ∧
            stp.head? = some hd ∧
            tr = update_stats (preTrace w hd) sta.latitude sta.longitude sta.elevation 'P')) := by
  unfold dayStepP
  dsimp only
  repeat' split
  all_goals intro p tr hm
  all_goals try (simp [writeEvents] at hm; done)
  all_goals rcases writes_shape_processAndWrite w O stkey sta fs t1 _ _ _ p tr hm
    with h | h | h
  all_goals first
    | (simp [writeEvents] at h; done)
    | (obtain ⟨c, hd, hh, he⟩ := h
       exact ⟨_, by assumption, Or.inl ⟨_, c, hd, by assumption, hh, he⟩⟩)
    | (obtain ⟨stpl, hd, hs, hh, he⟩ := h
       injection hs with hs2
       subst hs2
       exact ⟨_, by assumption, Or.inr ⟨_, hd, by assumption, hh, he⟩⟩)

theorem writes_shape_dayStepB (w : World) (O : Opts) (stkey : String) (sta : Station)
    (fs : List String) (t1 t2 : Nat) :
    ∀ p tr, (p, tr) ∈ writeEvents (dayStepB w O stkey sta fs t1 t2).1 →
      ∃ loc, sta.location.head? = some loc ∧
        ((∃ sth c hd,
            w.fetch sta.network sta.station loc (hChans sta) t1 t2 = .ok sth ∧
            (select c sth).head? = some hd ∧
            tr = update_stats (preTrace w hd) sta.latitude sta.longitude sta.elevation c) ∨
         (∃ stp hd,
            w.fetch sta.network sta.station loc "??H" t1 t2 = .ok stp ∧
            stp.head? = some hd ∧
            tr = update_stats (preTrace w hd) sta.latitude sta.longitude sta.elevation 'P')) := by
  unfold dayStepB
  dsimp only
  repeat' split
  all_goals intro p tr hm
  all_goals try (simp [writeEvents] at hm; done)
  all_goals rcases writes_shape_processAndWrite w O stkey sta fs t1 _ _ _ p tr hm
    with h | h | h
  all_goals first
    | (simp [writeEvents] at h; done)
    | (obtain ⟨c, hd, hh, he⟩ := h
       exact ⟨_, by assumption, Or.inl ⟨_, c, hd, by assumption, hh, he⟩⟩)
    | (obtain ⟨stpl, hd, hs, hh, he⟩ := h
       injection hs with hs2
       subst hs2
       exact ⟨_, by assumption, Or.inr ⟨_, hd, by assumption, hh, he⟩⟩)



/-- Every trace written during a day iteration is the preprocessed FIRST
trace of a component selection (or of the pressure bundle) of a stream the
client returned for that window. -/
theorem writes_shape_dayStep (w : World) (O : Opts) (stkey : String) (sta : Station)
    (fs : List String) (t1 t2 : Nat) :
    ∀ p tr, (p, tr) ∈ writeEvents (dayStep w O stkey sta fs t1 t2).1 →
      ∃ loc ch sth hd c,
        sta.location.head? = some loc ∧
        w.fetch sta.network sta.station loc ch t1 t2 = .ok sth ∧
        ((select c sth).head? = some hd ∨ sth.head? = some hd) ∧
        tr = update_stats (preTrace w hd) sta.latitude sta.longitude sta.elevation c := by
  unfold dayStep
  split
  · intro p tr hm
    obtain ⟨loc, sth, c, hd, hl, hf, hh, he⟩ :=
      writes_shape_dayStepH w O stkey sta fs t1 t2 p tr hm
    exact ⟨loc, _, sth, hd, c, hl, hf, Or.inl hh, he⟩
  · split
    · intro p tr hm
      obtain ⟨loc, hl, h⟩ := writes_shape_dayStepP w O stkey sta fs t1 t2 p tr hm
      rcases h with ⟨sth, c, hd, hf, hh, he⟩ | ⟨stp, hd, hf, hh, he⟩
      · exact ⟨loc, _, sth, hd, c, hl, hf, Or.inl hh, he⟩
      · exact ⟨loc, _, stp, hd, 'P', hl, hf, Or.inr hh, he⟩
    · intro p tr hm
      obtain ⟨loc, hl, h⟩ := writes_shape_dayStepB w O stkey sta fs t1 t2 p tr hm
      rcases h with ⟨sth, c, hd, hf, hh, he⟩ | ⟨stp, hd, hf, hh, he⟩
      · exact ⟨loc, _, sth, hd, c, hl, hf, Or.inl hh, he⟩
      · exact ⟨loc, _, stp, hd, 'P', hl, hf, Or.inr hh, he⟩



/-! ## Helper lemmas: the validation verdict as a function of first traces -/


theorem dayStepH_valFailed_len (w : World) (O : Opts) (stkey : String) (sta : Station)
    (fs : List String) (t1 t2 : Nat) (loc : String) (sth : List Trace)
    (trZ tr1 tr2 : Trace)
    (hsk : ¬((sacName stkey sta t1 "Z" ∈ fs ∧ sacName stkey sta t1 "1" ∈ fs ∧
        sacName stkey sta t1 "2" ∈ fs) ∧ O.ovr = false))
    (hloc : sta.location.head? = some loc)
    (hfetch : w.fetch sta.network sta.station loc (hChans sta) t1 t2 = .ok sth)
    (hZ : (select 'Z' sth).head? = some trZ)
    (h1 : (select '1' sth).head? = some tr1)
    (h2 : (select '2' sth).head? = some tr2)
    (hne : trZ.npts ≠ tr1.npts ∨ trZ.npts ≠ tr2.npts) :
    dayStepH w O stkey sta fs t1 t2 =
      ([Event.day t1, Event.fetch sta.network sta.station loc (hChans sta) t1 t2],
       .ok (fs, .validationFailed)) := by
  rw [dayStepH]
  dsimp only
  rw [if_neg hsk]
  simp only [hloc, hfetch, hZ, h1, h2]
  rw [if_pos hne]

theorem dayStepH_processes (w : World) (O : Opts) (stkey : String) (sta : Station)
    (fs : List String) (t1 t2 : Nat) (loc : String) (sth : List Trace)
    (trZ tr1 tr2 tr0 : Trace)
    (hsk : ¬((sacName stkey sta t1 "Z" ∈ fs ∧ sacName stkey sta t1 "1" ∈ fs ∧
        sacName stkey sta t1 "2" ∈ fs) ∧ O.ovr = false))
    (hloc : sta.location.head? = some loc)
    (hfetch : w.fetch sta.network sta.station loc (hChans sta) t1 t2 = .ok sth)
    (hZ : (select 'Z' sth).head? = some trZ)
    (h1 : (select '1' sth).head? = some tr1)
    (h2 : (select '2' sth).head? = some tr2)
    (heq1 : trZ.npts = tr1.npts) (heq2 : trZ.npts = tr2.npts)
    (h0 : sth.head? = some tr0)
    (htol : ((trZ.npts : Int) - (86400 * tr0.sr : Nat)).natAbs ≤ 1) :
    dayStepH w O stkey sta fs t1 t2 =
      processAndWrite w O stkey sta fs t1
        [Event.day t1, Event.fetch sta.network sta.station loc (hChans sta) t1 t2]
        sth none := by
  rw [dayStepH]
  dsimp only
  rw [if_neg hsk]
  simp only [hloc, hfetch, hZ, h1, h2, h0]
  rw [if_neg (by omega), if_neg (by omega)]

/-- The validation verdict of the seismic-only arm is a function of the FIRST
trace of each component selection and the first trace of the stream alone. -/
theorem dayStepH_vf_iff (w : World) (O : Opts) (stkey : String) (sta : Station)
    (fs : List String) (t1 t2 : Nat) (loc : String) (sth : List Trace)
    (trZ tr1 tr2 tr0 : Trace)
    (hsk : ¬((sacName stkey sta t1 "Z" ∈ fs ∧ sacName stkey sta t1 "1" ∈ fs ∧
        sacName stkey sta t1 "2" ∈ fs) ∧ O.ovr = false))
    (hloc : sta.location.head? = some loc)
    (hfetch : w.fetch sta.network sta.station loc (hChans sta) t1 t2 = .ok sth)
    (hZ : (select 'Z' sth).head? = some trZ)
    (h1 : (select '1' sth).head? = some tr1)
    (h2 : (select '2' sth).head? = some tr2)
    (h0 : sth.head? = some tr0) :
    (dayStepH w O stkey sta fs t1 t2).2 = .ok (fs, .validationFailed) ↔
      (trZ.npts ≠ tr1.npts ∨ trZ.npts ≠ tr2.npts ∨
       1 < ((trZ.npts : Int) - (86400 * tr0.sr : Nat)).natAbs) := by
  by_cases hne : trZ.npts ≠ tr1.npts ∨ trZ.npts ≠ tr2.npts
  · rw [dayStepH_valFailed_len w O stkey sta fs t1 t2 loc sth trZ tr1 tr2 hsk hloc hfetch
      hZ h1 h2 hne]
    refine iff_of_true rfl ?_
    tauto
  · have heq1 : trZ.npts = tr1.npts := by tauto
    have heq2 : trZ.npts = tr2.npts := by tauto
    by_cases htol : 1 < ((trZ.npts : Int) - (86400 * tr0.sr : Nat)).natAbs
    · rw [dayStepH_valFailed w O stkey sta fs t1 t2 loc sth trZ tr1 tr2 tr0 hsk hloc hfetch
        hZ h1 h2 heq1 heq2 h0 htol]
      refine iff_of_true rfl ?_
      right; right; omega
    · rw [dayStepH_processes w O stkey sta fs t1 t2 loc sth trZ tr1 tr2 tr0 hsk hloc hfetch
        hZ h1 h2 heq1 heq2 h0 (by omega)]
      constructor
      · intro hc
        have := processAndWrite_ok hc
        simp at this
      · intro hc
        rcases hc with hc | hc | hc <;> first | tauto | omega



theorem dayStepP_valFailed_len (w : World) (O : Opts) (stkey : String) (sta : Station)
    (fs : List String) (t1 t2 : Nat) (loc : String) (sth stp : List Trace)
    (trZ trP : Trace)
    (hsk : ¬((sacName stkey sta t1 "Z" ∈ fs ∧ sacName stkey sta t1 "H" ∈ fs) ∧
        O.ovr = false))
    (hloc : sta.location.head? = some loc)
    (hfetchZ : w.fetch sta.network sta.station loc (strUpper sta.channel ++ "Z") t1 t2 = .ok sth)
    (hfetchP : w.fetch sta.network sta.station loc "??H" t1 t2 = .ok stp)
    (hZ : (select 'Z' sth).head? = some trZ)
    (hP : stp.head? = some trP)
    (hne : trZ.npts ≠ trP.npts) :
    dayStepP w O stkey sta fs t1 t2 =
      ([Event.day t1,
        Event.fetch sta.network sta.station loc (strUpper sta.channel ++ "Z") t1 t2,
        Event.fetch sta.network sta.station loc "??H" t1 t2],
       .ok (fs, .validationFailed)) := by
  rw [dayStepP]
  dsimp only
  rw [if_neg hsk]
  simp only [hloc, hfetchZ, hfetchP, hZ, hP]
  rw [if_pos hne]
  simp

theorem dayStepP_processes (w : World) (O : Opts) (stkey : String) (sta : Station)
    (fs : List String) (t1 t2 : Nat) (loc : String) (sth stp : List Trace)
    (trZ trP : Trace)
    (hsk : ¬((sacName stkey sta t1 "Z" ∈ fs ∧ sacName stkey sta t1 "H" ∈ fs) ∧
        O.ovr = false))
    (hloc : sta.location.head? = some loc)
    (hfetchZ : w.fetch sta.network sta.station loc (strUpper sta.channel ++ "Z") t1 t2 = .ok sth)
    (hfetchP : w.fetch sta.network sta.station loc "??H" t1 t2 = .ok stp)
    (hZ : (select 'Z' sth).head? = some trZ)
    (hP : stp.head? = some trP)
    (heq : trZ.npts = trP.npts)
    (htol : ((trZ.npts : Int) - (86400 * trP.sr : Nat)).natAbs ≤ 1) :
    dayStepP w O stkey sta fs t1 t2 =
      processAndWrite w O stkey sta fs t1
        [Event.day t1,
         Event.fetch sta.network sta.station loc (strUpper sta.channel ++ "Z") t1 t2,
         Event.fetch sta.network sta.station loc "??H" t1 t2]
        sth (some stp) := by
  rw [dayStepP]
  dsimp only
  rw [if_neg hsk]
  simp only [hloc, hfetchZ, hfetchP, hZ, hP]
  rw [if_neg (by omega), if_neg (by omega)]
  simp

theorem dayStepP_vf_iff (w : World) (O : Opts) (stkey : String) (sta : Station)
    (fs : List String) (t1 t2 : Nat) (loc : String) (sth stp : List Trace)
    (trZ trP : Trace)
    (hsk : ¬((sacName stkey sta t1 "Z" ∈ fs ∧ sacName stkey sta t1 "H" ∈ fs) ∧
        O.ovr = false))
    (hloc : sta.location.head? = some loc)
    (hfetchZ : w.fetch sta.network sta.station loc (strUpper sta.channel ++ "Z") t1 t2 = .ok sth)
    (hfetchP : w.fetch sta.network sta.station loc "??H" t1 t2 = .ok stp)
    (hZ : (select 'Z' sth).head? = some trZ)
    (hP : stp.head? = some trP) :
    (dayStepP w O stkey sta fs t1 t2).2 = .ok (fs, .validationFailed) ↔
      (trZ.npts ≠ trP.npts ∨
       1 < ((trZ.npts : Int) - (86400 * trP.sr : Nat)).natAbs) := by
  by_cases hne : trZ.npts ≠ trP.npts
  · rw [dayStepP_valFailed_len w O stkey sta fs t1 t2 loc sth stp trZ trP hsk hloc
      hfetchZ hfetchP hZ hP hne]
    refine iff_of_true rfl ?_
    tauto
  · have heq : trZ.npts = trP.npts := by tauto
    by_cases htol : 1 < ((trZ.npts : Int) - (86400 * trP.sr : Nat)).natAbs
    · rw [dayStepP_valFailed w O stkey sta fs t1 t2 loc sth stp trZ trP hsk hloc
        hfetchZ hfetchP hZ hP heq htol]
      refine iff_of_true rfl ?_
      right; omega
    · rw [dayStepP_processes w O stkey sta fs t1 t2 loc sth stp trZ trP hsk hloc
        hfetchZ hfetchP hZ hP heq (by omega)]
      constructor
      · intro hc
        have := processAndWrite_ok hc
        simp at this
      · intro hc
        rcases hc with hc | hc <;> first | tauto | omega

theorem dayStepB_valFailed_len (w : World) (O : Opts) (stkey : String) (sta : Station)
    (fs : List String) (t1 t2 : Nat) (loc : String) (sth stp : List Trace)
    (trZ tr1 tr2 trP : Trace)
    (hsk : ¬((sacName stkey sta t1 "Z" ∈ fs ∧ sacName stkey sta t1 "1" ∈ fs ∧
        sacName stkey sta t1 "2" ∈ fs ∧ sacName stkey sta t1 "H" ∈ fs) ∧ O.ovr = false))
    (hloc : sta.location.head? = some loc)
    (hfetchH : w.fetch sta.network sta.station loc (hChans sta) t1 t2 = .ok sth)
    (hfetchP : w.fetch sta.network sta.station loc "??H" t1 t2 = .ok stp)
    (hZ : (select 'Z' sth).head? = some trZ)
    (h1 : (select '1' sth).head? = some tr1)
    (h2 : (select '2' sth).head? = some tr2)
    (hP : stp.head? = some trP)
    (hne : trZ.npts ≠ tr1.npts ∨ trZ.npts ≠ tr2.npts ∨ trZ.npts ≠ trP.npts) :
    dayStepB w O stkey sta fs t1 t2 =
      ([Event.day t1,
        Event.fetch sta.network sta.station loc (hChans sta) t1 t2,
        Event.fetch sta.network sta.station loc "??H" t1 t2],
       .ok (fs, .validationFailed)) := by
  rw [dayStepB]
  dsimp only
  rw [if_neg hsk]
  simp only [hloc, hfetchH, hfetchP, hZ, h1, h2, hP]
  rw [if_pos hne]
  simp

theorem dayStepB_processes (w : World) (O : Opts) (stkey : String) (sta : Station)
    (fs : List String) (t1 t2 : Nat) (loc : String) (sth stp : List Trace)
    (trZ tr1 tr2 trP tr0 : Trace)
    (hsk : ¬((sacName stkey sta t1 "Z" ∈ fs ∧ sacName stkey sta t1 "1" ∈ fs ∧
        sacName stkey sta t1 "2" ∈ fs ∧ sacName stkey sta t1 "H" ∈ fs) ∧ O.ovr = false))
    (hloc : sta.location.head? = some loc)
    (hfetchH : w.fetch sta.network sta.station loc (hChans sta) t1 t2 = .ok sth)
    (hfetchP : w.fetch sta.network sta.station loc "??H" t1 t2 = .ok stp)
    (hZ : (select 'Z' sth).head? = some trZ)
    (h1 : (select '1' sth).head? = some tr1)
    (h2 : (select '2' sth).head? = some tr2)
    (hP : stp.head? = some trP)
    (heq1 : trZ.npts = tr1.npts) (heq2 : trZ.npts = tr2.npts) (heqP : trZ.npts = trP.npts)
    (h0 : sth.head? = some tr0)
    (htol : ((trZ.npts : Int) - (86400 * tr0.sr : Nat)).natAbs ≤ 1) :
    dayStepB w O stkey sta fs t1 t2 =
      processAndWrite w O stkey sta fs t1
        [Event.day t1,
         Event.fetch sta.network sta.station loc (hChans sta) t1 t2,
         Event.fetch sta.network sta.station loc "??H" t1 t2]
        sth (some stp) := by
  rw [dayStepB]
  dsimp only
  rw [if_neg hsk]
  simp only [hloc, hfetchH, hfetchP, hZ, h1, h2, hP, h0]
  rw [if_neg (by omega), if_neg (by omega)]
  simp

/-- The validation verdict of the default arm is a function of the FIRST
trace per component selection, the pressure bundle's first trace, and the
seismic bundle's first trace alone. -/
theorem dayStepB_vf_iff (w : World) (O : Opts) (stkey : String) (sta : Station)
    (fs : List String) (t1 t2 : Nat) (loc : String) (sth stp : List Trace)
    (trZ tr1 tr2 trP tr0 : Trace)
    (hsk : ¬((sacName stkey sta t1 "Z" ∈ fs ∧ sacName stkey sta t1 "1" ∈ fs ∧
        sacName stkey sta t1 "2" ∈ fs ∧ sacName stkey sta t1 "H" ∈ fs) ∧ O.ovr = false))
    (hloc : sta.location.head? = some loc)
    (hfetchH : w.fetch sta.network sta.station loc (hChans sta) t1 t2 = .ok sth)
    (hfetchP : w.fetch sta.network sta.station loc "??H" t1 t2 = .ok stp)
    (hZ : (select 'Z' sth).head? = some trZ)
    (h1 : (select '1' sth).head? = some tr1)
    (h2 : (select '2' sth).head? = some tr2)
    (hP : stp.head? = some trP)
    (h0 : sth.head? = some tr0) :
    (dayStepB w O stkey sta fs t1 t2).2 = .ok (fs, .validationFailed) ↔
      (trZ.npts ≠ tr1.npts ∨ trZ.npts ≠ tr2.npts ∨ trZ.npts ≠ trP.npts ∨
       1 < ((trZ.npts : Int) - (86400 * tr0.sr : Nat)).natAbs) := by
  by_cases hne : trZ.npts ≠ tr1.npts ∨ trZ.npts ≠ tr2.npts ∨ trZ.npts ≠ trP.npts
  · rw [dayStepB_valFailed_len w O stkey sta fs t1 t2 loc sth stp trZ tr1 tr2 trP hsk hloc
      hfetchH hfetchP hZ h1 h2 hP hne]
    refine iff_of_true rfl ?_
    tauto
  · have heq1 : trZ.npts = tr1.npts := by tauto
    have heq2 : trZ.npts = tr2.npts := by tauto
    have heqP : trZ.npts = trP.npts := by tauto
    by_cases htol : 1 < ((trZ.npts : Int) - (86400 * tr0.sr : Nat)).natAbs
    · rw [dayStepB_valFailed w O stkey sta fs t1 t2 loc sth stp trZ tr1 tr2 trP tr0 hsk hloc
        hfetchH hfetchP hZ h1 h2 hP heq1 heq2 heqP h0 htol]
      refine iff_of_true rfl ?_
      right; right; right; omega
    · rw [dayStepB_processes w O stkey sta fs t1 t2 loc sth stp trZ tr1 tr2 trP tr0 hsk hloc
        hfetchH hfetchP hZ h1 h2 hP heq1 heq2 heqP h0 (by omega)]
      constructor
      · intro hc
        have := processAndWrite_ok hc
        simp at this
      · intro hc
        rcases hc with hc | hc | hc | hc <;> first | tauto | omega




/-! ## Concrete instances for counterexamples and witnesses -/

/-- The spec's scenario station: key `XX.YYYY`, channel code `HH`,
active 1970-01-01 to 1970-01-04. -/
def exSta : Station :=
  { network := "XX", station := "YYYY", channel := "HH", location := ["--"],
    latitude := 0, longitude := 0, elevation := 0, startdate := 0, enddate := 259200 }

/-- A station not active before POSIX 1000000. -/
def exStaLate : Station :=
  { network := "NN", station := "SSSS", channel := "BH", location := ["00"],
    latitude := 0, longitude := 0, elevation := 0,
    startdate := 1000000, enddate := 2000000 }

/-- Seismic-only channel set (`-C H`), explicit date overrides. -/
def exOptsH : Opts :=
  { chanH := true, chanP := false, startT := some 0, endT := some 86400,
    ovr := false, new_sampling_rate := 5 }

/-- Seismic-only channel set, no date overrides (the per-station defaults). -/
def exOptsHNoEnd : Opts :=
  { chanH := true, chanP := false, startT := none, endT := none,
    ovr := false, new_sampling_rate := 5 }

/-- Default channel set (both), two-day override range. -/
def exOptsB : Opts :=
  { chanH := true, chanP := true, startT := some 0, endT := some 172800,
    ovr := false, new_sampling_rate := 5 }

/-- Default channel set with the overwrite flag. -/
def exOptsBovr : Opts :=
  { chanH := true, chanP := true, startT := some 0, endT := some 172800,
    ovr := true, new_sampling_rate := 5 }

/-- A trace with the given component code and sample count, at 5 Hz
(a full day is 86400 × 5 = 432000 samples). -/
def exTr (c : Char) (n : Nat) : Trace := { comp := c, npts := n, sr := 5 }

/-- Client returning a complete full-day three-component stream. -/
def exWorldGood : World :=
  { fetch := fun _ _ _ _ _ _ =>
      .ok [exTr 'Z' 432000, exTr '1' 432000, exTr '2' 432000],
    preFail := fun _ => false, pre := id }

/-- Client returning a stream that lacks component `1`. -/
def exWorldMissing : World :=
  { fetch := fun _ _ _ _ _ _ => .ok [exTr 'Z' 432000, exTr '2' 432000],
    preFail := fun _ => false, pre := id }

/-- Client whose every request raises. -/
def exWorldErr : World :=
  { fetch := fun _ _ _ _ _ _ => .error (),
    preFail := fun _ => false, pre := id }

/-- Client for which only the pressure (`??H`) request raises. -/
def exWorldHOnly : World :=
  { fetch := fun _ _ _ ch _ _ =>
      if ch = "??H" then .error ()
      else .ok [exTr 'Z' 432000, exTr '1' 432000, exTr '2' 432000],
    preFail := fun _ => false, pre := id }

/-- Good client, but the preprocessing chain raises on every trace. -/
def exWorldPreFail : World :=
  { fetch := fun _ _ _ _ _ _ =>
      .ok [exTr 'Z' 432000, exTr '1' 432000, exTr '2' 432000],
    preFail := fun _ => true, pre := id }

/-- Client whose streams are off the expected count by exactly one sample. -/
def exWorldOffOne : World :=
  { fetch := fun _ _ _ _ _ _ =>
      .ok [exTr 'Z' 432001, exTr '1' 432001, exTr '2' 432001],
    preFail := fun _ => false, pre := id }

/-- Client whose streams are off the expected count by exactly two samples. -/
def exWorldOffTwo : World :=
  { fetch := fun _ _ _ _ _ _ =>
      .ok [exTr 'Z' 431998, exTr '1' 431998, exTr '2' 431998],
    preFail := fun _ => false, pre := id }

/-- Client returning gapped data: a second, shorter trace per component after
the first full-day trace. -/
def exWorldTails : World :=
  { fetch := fun _ _ _ _ _ _ =>
      .ok [exTr 'Z' 432000, exTr '1' 432000, exTr '2' 432000,
           exTr 'Z' 17, exTr '1' 99],
    preFail := fun _ => false, pre := id }

/-! ## The claims -/

/-- C1: the claim says that with no end-date override the effective end time
of the day-search range is the station's recorded END date.  The code
(source line 166, `tend = sta.startdate`) instead uses the station's START
date, contradicting the script's own option help text ("[Default end date
for each station in database]", lines 91–94).  Evaluated at a station whose
start and end dates differ, and at an explicit override (which is honoured). -/
theorem C1_code_eval :
    effectiveEnd exOptsHNoEnd exSta = exSta.startdate ∧
    exSta.startdate ≠ exSta.enddate ∧
    effectiveEnd exOptsHNoEnd exSta ≠ exSta.enddate ∧
    effectiveEnd { exOptsHNoEnd with endT := some 999999 } exSta = 999999 := by
  exact ⟨rfl, by decide, by decide, rfl⟩

/-- C4: a station whose effective requested range does not intersect its
`[startdate, enddate]` lifetime is skipped entirely: the run emits no event
at all, in particular zero waveform requests. -/
theorem C4_out_of_range_no_requests (w : World) (O : Opts) (stkey : String)
    (sta : Station) (fs : List String)
    (hse : sta.startdate ≤ sta.enddate)
    (hni : min (effectiveEnd O sta) sta.enddate <
      max (effectiveStart O sta) sta.startdate) :
    stationStep w O stkey sta fs = ([], .ok fs) ∧
    fetchEvents (stationStep w O stkey sta fs).1 = [] := by
  have h := stationStep_out_of_range w O stkey sta fs hse hni
  exact ⟨h, by rw [h]; rfl⟩

theorem C4_witness :
    stationStep exWorldGood exOptsB "NN.SSSS" exStaLate [] = ([], .ok []) ∧
    fetchEvents (stationStep exWorldGood exOptsB "NN.SSSS" exStaLate []).1 = [] :=
  C4_out_of_range_no_requests exWorldGood exOptsB "NN.SSSS" exStaLate []
    (by decide) (by decide)

/-- C5: in a run without an uncaught exception, the day loop visits exactly
the windows of the day segmenter (one banner per window, in order), and the
i-th window is `[tstart + i·86400, tstart + (i+1)·86400)`, produced while
the window's end does not exceed the effective end time — so both endpoints
advance by exactly one day per iteration whatever each day's outcome was. -/
theorem C5_day_segmenter (w : World) (O : Opts) (stkey : String) (sta : Station)
    (fs : List String) (tstart tend : Nat) (fsOut : List String)
    (hok : (dayLoop w O stkey sta fs tstart (tstart + 86400) tend).2 = .ok fsOut) :
    dayEvents (dayLoop w O stkey sta fs tstart (tstart + 86400) tend).1 =
      (dayWindows tstart (tstart + 86400) tend).map Prod.fst ∧
    ∀ i, (dayWindows tstart (tstart + 86400) tend)[i]? =
      (if tstart + 86400 * (i + 1) ≤ tend then
        some (tstart + 86400 * i, tstart + 86400 * (i + 1)) else none) := by
  constructor
  · exact dayEvents_dayLoopAux w O stkey sta _ fs tstart (tstart + 86400) tend fsOut hok
  · intro i
    rw [dayWindows]
    rw [dayWindowsAux_get (tend + 1 - (tstart + 86400)) tstart (tstart + 86400) tend
      (le_refl _) i]
    have e1 : tstart + 86400 + 86400 * i = tstart + 86400 * (i + 1) := by ring
    rw [e1]

theorem C5_witness :
    dayEvents (dayLoop exWorldGood exOptsH "XX.YYYY" exSta [] 0 86400 172800).1 =
      (dayWindows 0 86400 172800).map Prod.fst ∧
    (dayWindows 0 86400 172800)[1]? = some (0 + 86400 * 1, 0 + 86400 * (1 + 1)) := by
  have h := C5_day_segmenter exWorldGood exOptsH "XX.YYYY" exSta [] 0 172800
    ["DATA/XX.YYYY/1970.001..HHZ.SAC", "DATA/XX.YYYY/1970.001..HH1.SAC",
     "DATA/XX.YYYY/1970.001..HH2.SAC", "DATA/XX.YYYY/1970.002..HHZ.SAC",
     "DATA/XX.YYYY/1970.002..HH1.SAC", "DATA/XX.YYYY/1970.002..HH2.SAC"]
    (by rfl)
  refine ⟨h.1, ?_⟩
  rw [h.2 1]
  rfl

/-- C9: every waveform request issued anywhere in the station loop uses, as
its location argument, the FIRST entry of the owning station's normalized
location-code list; later location codes are never queried. -/
theorem C9_first_location_only (w : World) (O : Opts) :
    ∀ entries fs, ∀ e ∈ fetchEvents (stationLoop w O entries fs).1,
      ∃ stkey sta ch a b, (stkey, sta) ∈ entries ∧
        e = Event.fetch sta.network sta.station
          ((normalizeLocs sta.location).headD "") ch a b := by
  intro entries
  induction entries with
  | nil =>
    intro fs e he
    simp [stationLoop, fetchEvents] at he
  | cons kv rest ih =>
    rcases kv with ⟨stkey, sta⟩
    intro fs e he
    unfold stationLoop at he
    rcases hs : stationStep w O stkey sta fs with ⟨evs, r⟩
    rw [hs] at he
    cases r with
    | error err =>
      obtain ⟨ch, a, b, hE⟩ := fetch_shape_stationStep w O stkey sta fs e
        (by rw [hs]; exact he)
      exact ⟨stkey, sta, ch, a, b, by simp, hE⟩
    | ok fs2 =>
      simp only [] at he
      rw [fetchEvents_append, List.mem_append] at he
      rcases he with he | he
      · obtain ⟨ch, a, b, hE⟩ := fetch_shape_stationStep w O stkey sta fs e
          (by rw [hs]; exact he)
        exact ⟨stkey, sta, ch, a, b, by simp, hE⟩
      · obtain ⟨k2, s2, ch, a, b, hm, hE⟩ := ih fs2 e he
        exact ⟨k2, s2, ch, a, b, by simp [hm], hE⟩

theorem C9_witness :
    ∃ stkey sta ch a b, (stkey, sta) ∈ [("XX.YYYY", exSta)] ∧
      Event.fetch "XX" "YYYY" "--" "HH1,HH2,HHZ" 0 86400 =
        Event.fetch sta.network sta.station
          ((normalizeLocs sta.location).headD "") ch a b :=
  C9_first_location_only exWorldGood exOptsH [("XX.YYYY", exSta)] []
    (Event.fetch "XX" "YYYY" "--" "HH1,HH2,HHZ" 0 86400)
    (by
      rw [show fetchEvents (stationLoop exWorldGood exOptsH [("XX.YYYY", exSta)] []).1 =
        [Event.fetch "XX" "YYYY" "--" "HH1,HH2,HHZ" 0 86400] from rfl]
      exact List.mem_singleton.mpr rfl)




/-- C3: when all expected output files for the selected channel set are on
disk and the overwrite flag is off, the day is skipped with zero waveform
requests (the only event is the banner print); with the overwrite flag on,
the pre-existence skip is bypassed and the first request of the day's
download is issued. -/
theorem C3_preexistence_skip (w : World) (O O2 : Opts) (stkey : String) (sta : Station)
    (fs : List String) (t1 t2 : Nat) (loc : String) :
    (O.ovr = false → (∀ f ∈ expectedFiles O stkey sta t1, f ∈ fs) →
      dayStep w O stkey sta fs t1 t2 = ([Event.day t1], .ok (fs, .skippedExisting)) ∧
      fetchEvents (dayStep w O stkey sta fs t1 t2).1 = []) ∧
    (O2.ovr = true → sta.location.head? = some loc →
      ∃ ch tl, fetchEvents (dayStep w O2 stkey sta fs t1 t2).1 =
        Event.fetch sta.network sta.station loc ch t1 t2 :: tl) := by
  constructor
  · intro hovr hex
    have h := dayStep_skip w O stkey sta fs t1 t2 hovr hex
    exact ⟨h, by rw [h]; rfl⟩
  · intro hovr hloc
    have hsk : ∀ A : Prop, ¬(A ∧ O2.ovr = false) := by
      intro A hA
      rw [hovr] at hA
      exact absurd hA.2 (by simp)
    unfold dayStep
    by_cases hP : O2.chanP
    · by_cases hH : O2.chanH
      · simp only [hP, hH, Bool.not_true, Bool.false_eq_true, if_false]
        have hh := fetchEvents_head_dayStepB_nskip w O2 stkey sta fs t1 t2 loc
          (hsk _) hloc
        obtain ⟨tl, ht⟩ := head?_some_cons hh
        exact ⟨hChans sta, tl, ht⟩
      · simp only [hP, hH, Bool.not_true, Bool.not_false, Bool.false_eq_true, if_false,
          if_true]
        have hh := fetchEvents_head_dayStepP_nskip w O2 stkey sta fs t1 t2 loc
          (hsk _) hloc
        obtain ⟨tl, ht⟩ := head?_some_cons hh
        exact ⟨strUpper sta.channel ++ "Z", tl, ht⟩
    · simp only [hP, Bool.not_false, if_true]
      refine ⟨hChans sta, [], ?_⟩
      exact fetchEvents_dayStepH_nskip w O2 stkey sta fs t1 t2 loc (hsk _) hloc

theorem C3_witness :
    (dayStep exWorldGood exOptsB "XX.YYYY" exSta
        ["DATA/XX.YYYY/1970.001..HHZ.SAC", "DATA/XX.YYYY/1970.001..HH1.SAC",
         "DATA/XX.YYYY/1970.001..HH2.SAC", "DATA/XX.YYYY/1970.001..HHH.SAC"] 0 86400 =
      ([Event.day 0],
       .ok (["DATA/XX.YYYY/1970.001..HHZ.SAC", "DATA/XX.YYYY/1970.001..HH1.SAC",
             "DATA/XX.YYYY/1970.001..HH2.SAC", "DATA/XX.YYYY/1970.001..HHH.SAC"],
            .skippedExisting)) ∧
     fetchEvents (dayStep exWorldGood exOptsB "XX.YYYY" exSta
        ["DATA/XX.YYYY/1970.001..HHZ.SAC", "DATA/XX.YYYY/1970.001..HH1.SAC",
         "DATA/XX.YYYY/1970.001..HH2.SAC", "DATA/XX.YYYY/1970.001..HHH.SAC"] 0 86400).1 = []) ∧
    (∃ ch tl, fetchEvents (dayStep exWorldGood exOptsBovr "XX.YYYY" exSta
        ["DATA/XX.YYYY/1970.001..HHZ.SAC", "DATA/XX.YYYY/1970.001..HH1.SAC",
         "DATA/XX.YYYY/1970.001..HH2.SAC", "DATA/XX.YYYY/1970.001..HHH.SAC"] 0 86400).1 =
      Event.fetch "XX" "YYYY" "--" ch 0 86400 :: tl) := by
  have h := C3_preexistence_skip exWorldGood exOptsB exOptsBovr "XX.YYYY" exSta
    ["DATA/XX.YYYY/1970.001..HHZ.SAC", "DATA/XX.YYYY/1970.001..HH1.SAC",
     "DATA/XX.YYYY/1970.001..HH2.SAC", "DATA/XX.YYYY/1970.001..HHH.SAC"] 0 86400 "--"
  exact ⟨h.1 rfl (by decide), h.2 rfl rfl⟩



/-- C6 counterexample: the claim names the output files
`YYYY.DDD.{ch}1.SAC` etc., but the run writes `1970.001..HH1.SAC` — the
timestamp already ends in a dot and line 215 inserts another, so the actual
names carry a double dot and the claimed single-dot name is never written. -/
theorem C6_counterexample :
    (dayLoop exWorldGood exOptsH "XX.YYYY" exSta [] 0 86400 86400).2 =
      .ok ["DATA/XX.YYYY/1970.001..HHZ.SAC", "DATA/XX.YYYY/1970.001..HH1.SAC",
           "DATA/XX.YYYY/1970.001..HH2.SAC"] ∧
    "DATA/XX.YYYY/1970.001.HH1.SAC" ∉
      ["DATA/XX.YYYY/1970.001..HHZ.SAC", "DATA/XX.YYYY/1970.001..HH1.SAC",
       "DATA/XX.YYYY/1970.001..HH2.SAC"] :=
  ⟨rfl, by decide⟩

/-- C6 (amended): in channel-set mode H, for a day whose files are absent,
exactly one request is issued, with channel string `{CH}1,{CH}2,{CH}Z` (the
channel prefix uppercased), and on acceptance exactly three files are
written under `DATA/<station-key>/`, named with the zero-padded year, a dot,
the zero-padded Julian day, a DOUBLE dot, the channel prefix, the component
and `.SAC`. -/
theorem C6_h_mode_day (w : World) (O : Opts) (stkey : String) (sta : Station)
    (fs : List String) (t1 t2 : Nat) (loc : String)
    (hH : O.chanH = true) (hP : O.chanP = false)
    (habs : sacName stkey sta t1 "Z" ∉ fs)
    (hloc : sta.location.head? = some loc) :
    fetchEvents (dayStep w O stkey sta fs t1 t2).1 =
      [Event.fetch sta.network sta.station loc
        (strUpper sta.channel ++ "1," ++ strUpper sta.channel ++ "2," ++
          strUpper sta.channel ++ "Z") t1 t2] ∧
    (∀ evs fs2, dayStep w O stkey sta fs t1 t2 = (evs, .ok (fs2, .written)) →
      (writeEvents evs).map Prod.fst =
        ["DATA/" ++ stkey ++ "/" ++ zfill 4 (toString (year t1)) ++ "." ++
           zfill 3 (toString (julday t1)) ++ ".." ++ sta.channel ++ "Z.SAC",
         "DATA/" ++ stkey ++ "/" ++ zfill 4 (toString (year t1)) ++ "." ++
           zfill 3 (toString (julday t1)) ++ ".." ++ sta.channel ++ "1.SAC",
         "DATA/" ++ stkey ++ "/" ++ zfill 4 (toString (year t1)) ++ "." ++
           zfill 3 (toString (julday t1)) ++ ".." ++ sta.channel ++ "2.SAC"] ∧
      fs2 = fs ++ [sacName stkey sta t1 "Z", sacName stkey sta t1 "1",
        sacName stkey sta t1 "2"]) := by
  have hsk : ¬((sacName stkey sta t1 "Z" ∈ fs ∧ sacName stkey sta t1 "1" ∈ fs ∧
      sacName stkey sta t1 "2" ∈ fs) ∧ O.ovr = false) := fun hA => habs hA.1.1
  constructor
  · rw [dayStep_eq_H w stkey sta fs t1 t2 hP]
    exact fetchEvents_dayStepH_nskip w O stkey sta fs t1 t2 loc hsk hloc
  · intro evs fs2 h
    rw [dayStep_eq_H w stkey sta fs t1 t2 hP] at h
    obtain ⟨loc2, sth, trZ, tr1, tr2, tr0, hl2, hf, hZ, h1, h2, he1, he2, h0, htol, hpre⟩ :=
      dayStepH_written_inv h
    have hchar := dayStepH_written w O stkey sta fs t1 t2 loc2 sth trZ tr1 tr2 tr0
      hsk hl2 hf hZ h1 h2 he1 he2 h0 htol hpre hH hP
    rw [hchar] at h
    have hevs : evs = [Event.day t1,
        Event.fetch sta.network sta.station loc2 (hChans sta) t1 t2,
        Event.write (sacName stkey sta t1 "Z")
          (update_stats (preTrace w trZ) sta.latitude sta.longitude sta.elevation 'Z'),
        Event.write (sacName stkey sta t1 "1")
          (update_stats (preTrace w tr1) sta.latitude sta.longitude sta.elevation '1'),
        Event.write (sacName stkey sta t1 "2")
          (update_stats (preTrace w tr2) sta.latitude sta.longitude sta.elevation '2')] :=
      (congrArg Prod.fst h).symm
    have hfs : fs2 = fs ++ [sacName stkey sta t1 "Z", sacName stkey sta t1 "1",
        sacName stkey sta t1 "2"] := by
      have := congrArg Prod.snd h
      simpa using this.symm
    constructor
    · rw [hevs]
      simp [writeEvents, sacName_eq]
      refine ⟨?_, ?_, ?_⟩ <;> (rw [String.append_assoc]; rfl)
    · exact hfs

theorem C6_h_mode_day_witness :
    fetchEvents (dayStep exWorldGood exOptsH "XX.YYYY" exSta [] 0 86400).1 =
      [Event.fetch "XX" "YYYY" "--"
        (strUpper exSta.channel ++ "1," ++ strUpper exSta.channel ++ "2," ++
          strUpper exSta.channel ++ "Z") 0 86400] ∧
    ((writeEvents [Event.day 0,
        Event.fetch "XX" "YYYY" "--" (hChans exSta) 0 86400,
        Event.write (sacName "XX.YYYY" exSta 0 "Z")
          (update_stats (preTrace exWorldGood (exTr 'Z' 432000)) 0 0 0 'Z'),
        Event.write (sacName "XX.YYYY" exSta 0 "1")
          (update_stats (preTrace exWorldGood (exTr '1' 432000)) 0 0 0 '1'),
        Event.write (sacName "XX.YYYY" exSta 0 "2")
          (update_stats (preTrace exWorldGood (exTr '2' 432000)) 0 0 0 '2')]).map Prod.fst =
      ["DATA/" ++ "XX.YYYY" ++ "/" ++ zfill 4 (toString (year 0)) ++ "." ++
         zfill 3 (toString (julday 0)) ++ ".." ++ exSta.channel ++ "Z.SAC",
       "DATA/" ++ "XX.YYYY" ++ "/" ++ zfill 4 (toString (year 0)) ++ "." ++
         zfill 3 (toString (julday 0)) ++ ".." ++ exSta.channel ++ "1.SAC",
       "DATA/" ++ "XX.YYYY" ++ "/" ++ zfill 4 (toString (year 0)) ++ "." ++
         zfill 3 (toString (julday 0)) ++ ".." ++ exSta.channel ++ "2.SAC"] ∧
     (["DATA/XX.YYYY/1970.001..HHZ.SAC", "DATA/XX.YYYY/1970.001..HH1.SAC",
       "DATA/XX.YYYY/1970.001..HH2.SAC"] : List String) =
      [] ++ [sacName "XX.YYYY" exSta 0 "Z", sacName "XX.YYYY" exSta 0 "1",
        sacName "XX.YYYY" exSta 0 "2"]) := by
  have h := C6_h_mode_day exWorldGood exOptsH "XX.YYYY" exSta [] 0 86400 "--"
    rfl rfl (by decide) rfl
  exact ⟨h.1, h.2 _ _ (by rfl)⟩



/-- C7: in channel-set mode `both`, an exception from either the seismic or
the pressure request is caught locally: the day ends `fetchFailed`, the
filesystem is unchanged (no file written), and the while loop advances to
the next window. -/
theorem C7_fetch_error_caught (w w2 : World) (O : Opts) (stkey : String) (sta : Station)
    (fs : List String) (t1 t2 tend : Nat) (loc : String) (sth : List Trace) (e e2 : Unit)
    (hH : O.chanH = true) (hP : O.chanP = true)
    (hsk : ¬((sacName stkey sta t1 "Z" ∈ fs ∧ sacName stkey sta t1 "1" ∈ fs ∧
        sacName stkey sta t1 "2" ∈ fs ∧ sacName stkey sta t1 "H" ∈ fs) ∧ O.ovr = false))
    (hloc : sta.location.head? = some loc)
    (hle : t2 ≤ tend) :
    (w.fetch sta.network sta.station loc (hChans sta) t1 t2 = .error e →
      dayStep w O stkey sta fs t1 t2 =
        ([Event.day t1, Event.fetch sta.network sta.station loc (hChans sta) t1 t2],
         .ok (fs, .fetchFailed)) ∧
      dayLoop w O stkey sta fs t1 t2 tend =
        ([Event.day t1, Event.fetch sta.network sta.station loc (hChans sta) t1 t2] ++
           (dayLoop w O stkey sta fs (t1 + 86400) (t2 + 86400) tend).1,
         (dayLoop w O stkey sta fs (t1 + 86400) (t2 + 86400) tend).2)) ∧
    (w2.fetch sta.network sta.station loc (hChans sta) t1 t2 = .ok sth →
      w2.fetch sta.network sta.station loc "??H" t1 t2 = .error e2 →
      dayStep w2 O stkey sta fs t1 t2 =
        ([Event.day t1, Event.fetch sta.network sta.station loc (hChans sta) t1 t2,
          Event.fetch sta.network sta.station loc "??H" t1 t2],
         .ok (fs, .fetchFailed)) ∧
      dayLoop w2 O stkey sta fs t1 t2 tend =
        ([Event.day t1, Event.fetch sta.network sta.station loc (hChans sta) t1 t2,
          Event.fetch sta.network sta.station loc "??H" t1 t2] ++
           (dayLoop w2 O stkey sta fs (t1 + 86400) (t2 + 86400) tend).1,
         (dayLoop w2 O stkey sta fs (t1 + 86400) (t2 + 86400) tend).2)) := by
  constructor
  · intro herr
    have hstep : dayStep w O stkey sta fs t1 t2 =
        ([Event.day t1, Event.fetch sta.network sta.station loc (hChans sta) t1 t2],
         .ok (fs, .fetchFailed)) := by
      rw [dayStep_eq_B w stkey sta fs t1 t2 hP hH]
      exact dayStepB_fetchH_err w O stkey sta fs t1 t2 loc e hsk hloc herr
    refine ⟨hstep, ?_⟩
    rw [dayLoop_unfold, if_pos hle, hstep]
  · intro hok herr
    have hstep : dayStep w2 O stkey sta fs t1 t2 =
        ([Event.day t1, Event.fetch sta.network sta.station loc (hChans sta) t1 t2,
          Event.fetch sta.network sta.station loc "??H" t1 t2],
         .ok (fs, .fetchFailed)) := by
      rw [dayStep_eq_B w2 stkey sta fs t1 t2 hP hH]
      exact dayStepB_fetchP_err w2 O stkey sta fs t1 t2 loc sth e2 hsk hloc hok herr
    refine ⟨hstep, ?_⟩
    rw [dayLoop_unfold, if_pos hle, hstep]

theorem C7_witness :
    (dayStep exWorldErr exOptsB "XX.YYYY" exSta [] 0 86400 =
      ([Event.day 0, Event.fetch "XX" "YYYY" "--" (hChans exSta) 0 86400],
       .ok ([], .fetchFailed)) ∧
     dayLoop exWorldErr exOptsB "XX.YYYY" exSta [] 0 86400 172800 =
       ([Event.day 0, Event.fetch "XX" "YYYY" "--" (hChans exSta) 0 86400] ++
          (dayLoop exWorldErr exOptsB "XX.YYYY" exSta [] 86400 172800 172800).1,
        (dayLoop exWorldErr exOptsB "XX.YYYY" exSta [] 86400 172800 172800).2)) ∧
    (dayStep exWorldHOnly exOptsB "XX.YYYY" exSta [] 0 86400 =
      ([Event.day 0, Event.fetch "XX" "YYYY" "--" (hChans exSta) 0 86400,
        Event.fetch "XX" "YYYY" "--" "??H" 0 86400],
       .ok ([], .fetchFailed)) ∧
     dayLoop exWorldHOnly exOptsB "XX.YYYY" exSta [] 0 86400 172800 =
       ([Event.day 0, Event.fetch "XX" "YYYY" "--" (hChans exSta) 0 86400,
         Event.fetch "XX" "YYYY" "--" "??H" 0 86400] ++
          (dayLoop exWorldHOnly exOptsB "XX.YYYY" exSta [] 86400 172800 172800).1,
        (dayLoop exWorldHOnly exOptsB "XX.YYYY" exSta [] 86400 172800 172800).2)) := by
  have h := C7_fetch_error_caught exWorldErr exWorldHOnly exOptsB "XX.YYYY" exSta []
    0 86400 172800 "--" [exTr 'Z' 432000, exTr '1' 432000, exTr '2' 432000] () ()
    rfl rfl (by decide) rfl (by decide)
  exact ⟨h.1 rfl, h.2 rfl rfl⟩

/-- C8: an exception raised by the preprocessing chain of an accepted window
is not caught anywhere: the day loop ends with that exception, and the
station loop re-raises it, so no later station (and no later day) is
processed — unlike request exceptions, which are caught per window. -/
theorem C8_preproc_fatal (w : World) (O : Opts) (stkey : String) (sta : Station)
    (fs : List String) (t1 t2 tend : Nat) (loc : String) (sth : List Trace)
    (trZ tr1 tr2 tr0 : Trace)
    (hP : O.chanP = false)
    (hsk : ¬((sacName stkey sta t1 "Z" ∈ fs ∧ sacName stkey sta t1 "1" ∈ fs ∧
        sacName stkey sta t1 "2" ∈ fs) ∧ O.ovr = false))
    (hloc : sta.location.head? = some loc)
    (hfetch : w.fetch sta.network sta.station loc (hChans sta) t1 t2 = .ok sth)
    (hZ : (select 'Z' sth).head? = some trZ)
    (h1 : (select '1' sth).head? = some tr1)
    (h2 : (select '2' sth).head? = some tr2)
    (heq1 : trZ.npts = tr1.npts) (heq2 : trZ.npts = tr2.npts)
    (h0 : sth.head? = some tr0)
    (htol : ((trZ.npts : Int) - (86400 * tr0.sr : Nat)).natAbs ≤ 1)
    (hpre : sth.any w.preFail = true)
    (hle : t2 ≤ tend) :
    dayLoop w O stkey sta fs t1 t2 tend =
      ([Event.day t1, Event.fetch sta.network sta.station loc (hChans sta) t1 t2],
       .error ()) ∧
    (∀ stkey2 sta2 rest fs2 evs2,
      stationStep w O stkey2 sta2 fs2 = (evs2, .error ()) →
      stationLoop w O ((stkey2, sta2) :: rest) fs2 = (evs2, .error ())) := by
  constructor
  · have hstep : dayStep w O stkey sta fs t1 t2 =
        ([Event.day t1, Event.fetch sta.network sta.station loc (hChans sta) t1 t2],
         .error ()) := by
      rw [dayStep_eq_H w stkey sta fs t1 t2 hP]
      exact dayStepH_preFail w O stkey sta fs t1 t2 loc sth trZ tr1 tr2 tr0
        hsk hloc hfetch hZ h1 h2 heq1 heq2 h0 htol hpre
    rw [dayLoop_unfold, if_pos hle, hstep]
  · intro stkey2 sta2 rest fs2 evs2 hs
    exact stationLoop_cons_error hs

theorem C8_witness :
    dayLoop exWorldPreFail exOptsH "XX.YYYY" exSta [] 0 86400 86400 =
      ([Event.day 0, Event.fetch "XX" "YYYY" "--" (hChans exSta) 0 86400],
       .error ()) ∧
    stationLoop exWorldPreFail exOptsH [("XX.YYYY", exSta), ("NN.SSSS", exStaLate)] [] =
      ([Event.day 0, Event.fetch "XX" "YYYY" "--" (hChans exSta) 0 86400],
       .error ()) := by
  have h := C8_preproc_fatal exWorldPreFail exOptsH "XX.YYYY" exSta [] 0 86400 86400
    "--" [exTr 'Z' 432000, exTr '1' 432000, exTr '2' 432000]
    (exTr 'Z' 432000) (exTr '1' 432000) (exTr '2' 432000) (exTr 'Z' 432000)
    rfl (by decide) rfl rfl rfl rfl rfl rfl rfl rfl (by decide) rfl (by decide)
  refine ⟨h.1, ?_⟩
  exact h.2 "XX.YYYY" exSta [("NN.SSSS", exStaLate)] []
    [Event.day 0, Event.fetch "XX" "YYYY" "--" (hChans exSta) 0 86400] (by rfl)



/-- C2 counterexample: the claim says that on ANY failure no file is written
and the cursor advances to the next day.  With a successful fetch whose
stream lacks component `1` (a failure of "every required component was
fetched"), the `select('1')[0]` lookup raises an uncaught `IndexError`: no
file is written, but the run halts — the second window of the range is never
visited (only one banner, one request, and an `error` outcome). -/
theorem C2_counterexample :
    dayLoop exWorldMissing exOptsH "XX.YYYY" exSta [] 0 86400 172800 =
      ([Event.day 0, Event.fetch "XX" "YYYY" "--" (hChans exSta) 0 86400],
       .error ()) ∧
    dayWindows 0 86400 172800 = [(0, 86400), (86400, 172800)] :=
  ⟨rfl, rfl⟩

/-- C2 (amended): output files are written only if every required component
was fetched, the FIRST traces of the fetched components have pairwise equal
sample counts, and that count is within one sample of the expected count
(86400 × the reference trace's sampling rate); a count off by exactly 1 is
accepted and off by 2 is rejected; on a fetch exception or a failed length
check no file at all is written and the cursor advances to the next day;
but when a successful fetch lacks a required component the lookup of that
component raises an uncaught error that halts the run before any write (the
cursor does not advance). -/
theorem C2_length_tolerance (w : World) (O : Opts) (stkey : String) (sta : Station)
    (fs : List String) (t1 t2 tend : Nat) :
    -- (1) a day that ends without `written` leaves the filesystem unchanged
    --     and wrote no file at all
    (∀ evs fs2 d, dayStep w O stkey sta fs t1 t2 = (evs, .ok (fs2, d)) →
      d ≠ .written → fs2 = fs ∧ writeEvents evs = []) ∧
    -- (2) after every non-fatal day the loop advances to the next window
    (t2 ≤ tend → ∀ evs fs2 d, dayStep w O stkey sta fs t1 t2 = (evs, .ok (fs2, d)) →
      dayLoop w O stkey sta fs t1 t2 tend =
        (evs ++ (dayLoop w O stkey sta fs2 (t1 + 86400) (t2 + 86400) tend).1,
         (dayLoop w O stkey sta fs2 (t1 + 86400) (t2 + 86400) tend).2)) ∧
    -- (3) seismic-only mode: written only if Z, 1, 2 were all fetched with
    --     equal first-trace counts within one sample of the expected count
    (O.chanP = false → ∀ evs fs2,
      dayStep w O stkey sta fs t1 t2 = (evs, .ok (fs2, .written)) →
      ∃ loc sth trZ tr1 tr2 tr0,
        sta.location.head? = some loc ∧
        w.fetch sta.network sta.station loc (hChans sta) t1 t2 = .ok sth ∧
        (select 'Z' sth).head? = some trZ ∧
        (select '1' sth).head? = some tr1 ∧
        (select '2' sth).head? = some tr2 ∧
        trZ.npts = tr1.npts ∧ trZ.npts = tr2.npts ∧
        sth.head? = some tr0 ∧
        ((trZ.npts : Int) - (86400 * tr0.sr : Nat)).natAbs ≤ 1 ∧
        sth.any w.preFail = false) ∧
    -- (4) pressure-only mode
    (O.chanP = true → O.chanH = false → ∀ evs fs2,
      dayStep w O stkey sta fs t1 t2 = (evs, .ok (fs2, .written)) →
      ∃ loc sth stp trZ trP,
        sta.location.head? = some loc ∧
        w.fetch sta.network sta.station loc (strUpper sta.channel ++ "Z") t1 t2 = .ok sth ∧
        w.fetch sta.network sta.station loc "??H" t1 t2 = .ok stp ∧
        (select 'Z' sth).head? = some trZ ∧
        stp.head? = some trP ∧
        trZ.npts = trP.npts ∧
        ((trZ.npts : Int) - (86400 * trP.sr : Nat)).natAbs ≤ 1 ∧
        sth.any w.preFail = false ∧ stp.any w.preFail = false) ∧
    -- (5) default (both) mode
    (O.chanP = true → O.chanH = true → ∀ evs fs2,
      dayStep w O stkey sta fs t1 t2 = (evs, .ok (fs2, .written)) →
      ∃ loc sth stp trZ tr1 tr2 trP tr0,
        sta.location.head? = some loc ∧
        w.fetch sta.network sta.station loc (hChans sta) t1 t2 = .ok sth ∧
        w.fetch sta.network sta.station loc "??H" t1 t2 = .ok stp ∧
        (select 'Z' sth).head? = some trZ ∧
        (select '1' sth).head? = some tr1 ∧
        (select '2' sth).head? = some tr2 ∧
        stp.head? = some trP ∧
        trZ.npts = tr1.npts ∧ trZ.npts = tr2.npts ∧ trZ.npts = trP.npts ∧
        sth.head? = some tr0 ∧
        ((trZ.npts : Int) - (86400 * tr0.sr : Nat)).natAbs ≤ 1 ∧
        sth.any w.preFail = false ∧ stp.any w.preFail = false) ∧
    -- (6) tolerance boundary, seismic-only mode: off by at most one sample
    --     is accepted and written; off by two or more is rejected with the
    --     filesystem unchanged
    (O.chanP = false → O.chanH = true →
      ∀ loc sth trZ tr1 tr2 tr0,
        ¬((sacName stkey sta t1 "Z" ∈ fs ∧ sacName stkey sta t1 "1" ∈ fs ∧
           sacName stkey sta t1 "2" ∈ fs) ∧ O.ovr = false) →
        sta.location.head? = some loc →
        w.fetch sta.network sta.station loc (hChans sta) t1 t2 = .ok sth →
        (select 'Z' sth).head? = some trZ →
        (select '1' sth).head? = some tr1 →
        (select '2' sth).head? = some tr2 →
        trZ.npts = tr1.npts → trZ.npts = tr2.npts →
        sth.head? = some tr0 →
        sth.any w.preFail = false →
        ((((trZ.npts : Int) - (86400 * tr0.sr : Nat)).natAbs ≤ 1 →
          ∃ evs, dayStep w O stkey sta fs t1 t2 =
            (evs, .ok (fs ++ [sacName stkey sta t1 "Z", sacName stkey sta t1 "1",
              sacName stkey sta t1 "2"], .written))) ∧
         (2 ≤ ((trZ.npts : Int) - (86400 * tr0.sr : Nat)).natAbs →
          dayStep w O stkey sta fs t1 t2 =
            ([Event.day t1, Event.fetch sta.network sta.station loc (hChans sta) t1 t2],
             .ok (fs, .validationFailed))))) ∧
    -- (7) tolerance boundary, default (both) mode
    (O.chanP = true → O.chanH = true →
      ∀ loc sth stp trZ tr1 tr2 trP tr0,
        ¬((sacName stkey sta t1 "Z" ∈ fs ∧ sacName stkey sta t1 "1" ∈ fs ∧
           sacName stkey sta t1 "2" ∈ fs ∧ sacName stkey sta t1 "H" ∈ fs) ∧
          O.ovr = false) →
        sta.location.head? = some loc →
        w.fetch sta.network sta.station loc (hChans sta) t1 t2 = .ok sth →
        w.fetch sta.network sta.station loc "??H" t1 t2 = .ok stp →
        (select 'Z' sth).head? = some trZ →
        (select '1' sth).head? = some tr1 →
        (select '2' sth).head? = some tr2 →
        stp.head? = some trP →
        trZ.npts = tr1.npts → trZ.npts = tr2.npts → trZ.npts = trP.npts →
        sth.head? = some tr0 →
        sth.any w.preFail = false → stp.any w.preFail = false →
        ((((trZ.npts : Int) - (86400 * tr0.sr : Nat)).natAbs ≤ 1 →
          ∃ evs, dayStep w O stkey sta fs t1 t2 =
            (evs, .ok (fs ++ [sacName stkey sta t1 "Z", sacName stkey sta t1 "1",
              sacName stkey sta t1 "2", sacName stkey sta t1 "H"], .written))) ∧
         (2 ≤ ((trZ.npts : Int) - (86400 * tr0.sr : Nat)).natAbs →
          dayStep w O stkey sta fs t1 t2 =
            ([Event.day t1, Event.fetch sta.network sta.station loc (hChans sta) t1 t2,
              Event.fetch sta.network sta.station loc "??H" t1 t2],
             .ok (fs, .validationFailed))))) ∧
    -- (8) a missing required component after a successful fetch halts the
    --     run with an uncaught error: nothing written, the loop is dead
    (O.chanP = false →
      ∀ loc sth,
        ¬((sacName stkey sta t1 "Z" ∈ fs ∧ sacName stkey sta t1 "1" ∈ fs ∧
           sacName stkey sta t1 "2" ∈ fs) ∧ O.ovr = false) →
        sta.location.head? = some loc →
        w.fetch sta.network sta.station loc (hChans sta) t1 t2 = .ok sth →
        select '1' sth = [] →
        dayStep w O stkey sta fs t1 t2 =
          ([Event.day t1, Event.fetch sta.network sta.station loc (hChans sta) t1 t2],
           .error ()) ∧
        (t2 ≤ tend → dayLoop w O stkey sta fs t1 t2 tend =
          ([Event.day t1, Event.fetch sta.network sta.station loc (hChans sta) t1 t2],
           .error ()))) := by
  refine ⟨?_, ?_, ?_, ?_, ?_, ?_, ?_, ?_⟩
  · intro evs fs2 d h hd
    exact dayStep_ok_notWritten h hd
  · intro hle evs fs2 d h
    rw [dayLoop_unfold, if_pos hle, h]
  · intro hP evs fs2 h
    rw [dayStep_eq_H w stkey sta fs t1 t2 hP] at h
    exact dayStepH_written_inv h
  · intro hP hH evs fs2 h
    rw [dayStep_eq_P w stkey sta fs t1 t2 hP hH] at h
    exact dayStepP_written_inv hP h
  · intro hP hH evs fs2 h
    rw [dayStep_eq_B w stkey sta fs t1 t2 hP hH] at h
    exact dayStepB_written_inv hP h
  · intro hP hH loc sth trZ tr1 tr2 tr0 hsk hloc hfetch hZ h1 h2 heq1 heq2 h0 hpre
    constructor
    · intro htol
      have hstep := dayStepH_written w O stkey sta fs t1 t2 loc sth trZ tr1 tr2 tr0
        hsk hloc hfetch hZ h1 h2 heq1 heq2 h0 htol hpre hH hP
      rw [dayStep_eq_H w stkey sta fs t1 t2 hP] at *
      exact ⟨_, hstep⟩
    · intro htol
      rw [dayStep_eq_H w stkey sta fs t1 t2 hP]
      exact dayStepH_valFailed w O stkey sta fs t1 t2 loc sth trZ tr1 tr2 tr0
        hsk hloc hfetch hZ h1 h2 heq1 heq2 h0 (by omega)
  · intro hP hH loc sth stp trZ tr1 tr2 trP tr0 hsk hloc hfH hfP hZ h1 h2 hPh
      heq1 heq2 heqP h0 hpreH hpreP
    constructor
    · intro htol
      have hstep := dayStepB_written w O stkey sta fs t1 t2 loc sth stp trZ tr1 tr2 trP tr0
        hsk hloc hfH hfP hZ h1 h2 hPh heq1 heq2 heqP h0 htol hpreH hpreP hH hP
      rw [dayStep_eq_B w stkey sta fs t1 t2 hP hH]
      exact ⟨_, hstep⟩
    · intro htol
      rw [dayStep_eq_B w stkey sta fs t1 t2 hP hH]
      exact dayStepB_valFailed w O stkey sta fs t1 t2 loc sth stp trZ tr1 tr2 trP tr0
        hsk hloc hfH hfP hZ h1 h2 hPh heq1 heq2 heqP h0 (by omega)
  · intro hP loc sth hsk hloc hfetch hmiss
    have hstep : dayStep w O stkey sta fs t1 t2 =
        ([Event.day t1, Event.fetch sta.network sta.station loc (hChans sta) t1 t2],
         .error ()) := by
      rw [dayStep_eq_H w stkey sta fs t1 t2 hP]
      exact dayStepH_missing w O stkey sta fs t1 t2 loc sth hsk hloc hfetch hmiss
    refine ⟨hstep, fun hle => ?_⟩
    rw [dayLoop_unfold, if_pos hle, hstep]

/-- Witness for C2: at 5 Hz the expected full-day count is 86400 × 5 =
432000 samples.  A three-component stream of 432001 samples (off by exactly
one) is accepted and its three files are written; a stream of 431998 samples
(off by two) is rejected with the filesystem unchanged. -/
theorem C2_witness :
    (∃ evs, dayStep exWorldOffOne exOptsH "XX.YYYY" exSta [] 0 86400 =
      (evs, .ok ([sacName "XX.YYYY" exSta 0 "Z", sacName "XX.YYYY" exSta 0 "1",
        sacName "XX.YYYY" exSta 0 "2"], .written))) ∧
    dayStep exWorldOffTwo exOptsH "XX.YYYY" exSta [] 0 86400 =
      ([Event.day 0, Event.fetch "XX" "YYYY" "--" (hChans exSta) 0 86400],
       .ok ([], .validationFailed)) := by
  constructor
  · have h := (C2_length_tolerance exWorldOffOne exOptsH "XX.YYYY" exSta [] 0 86400
      86400).2.2.2.2.2.1 rfl rfl "--"
      [exTr 'Z' 432001, exTr '1' 432001, exTr '2' 432001]
      (exTr 'Z' 432001) (exTr '1' 432001) (exTr '2' 432001) (exTr 'Z' 432001)
      (by simp) rfl rfl rfl rfl rfl rfl rfl rfl rfl
    exact h.1 (by decide)
  · have h := (C2_length_tolerance exWorldOffTwo exOptsH "XX.YYYY" exSta [] 0 86400
      86400).2.2.2.2.2.1 rfl rfl "--"
      [exTr 'Z' 431998, exTr '1' 431998, exTr '2' 431998]
      (exTr 'Z' 431998) (exTr '1' 431998) (exTr '2' 431998) (exTr 'Z' 431998)
      (by simp) rfl rfl rfl rfl rfl rfl rfl rfl rfl
    exact h.2 (by decide)

/-- C10: validation and file writing use only the FIRST trace of each
component selection.  (a) Every trace written during a day is the
preprocessed first trace of some component selection (or the first trace of
the pressure stream); the later traces of a gapped bundle are never written.
(b) In every mode the validation verdict is exactly a condition on the
first traces of the component selections (their sample counts and the
reference first trace's sampling rate): traces beyond the first can never
change it. -/
theorem C10_first_trace_only (w : World) (O : Opts) (stkey : String) (sta : Station)
    (fs : List String) (t1 t2 : Nat) :
    (∀ p tr, (p, tr) ∈ writeEvents (dayStep w O stkey sta fs t1 t2).1 →
      ∃ loc ch sth hd c,
        sta.location.head? = some loc ∧
        w.fetch sta.network sta.station loc ch t1 t2 = .ok sth ∧
        ((select c sth).head? = some hd ∨ sth.head? = some hd) ∧
        tr = update_stats (preTrace w hd) sta.latitude sta.longitude sta.elevation c) ∧
    (∀ loc sth trZ tr1 tr2 tr0,
      ¬((sacName stkey sta t1 "Z" ∈ fs ∧ sacName stkey sta t1 "1" ∈ fs ∧
         sacName stkey sta t1 "2" ∈ fs) ∧ O.ovr = false) →
      sta.location.head? = some loc →
      w.fetch sta.network sta.station loc (hChans sta) t1 t2 = .ok sth →
      (select 'Z' sth).head? = some trZ →
      (select '1' sth).head? = some tr1 →
      (select '2' sth).head? = some tr2 →
      sth.head? = some tr0 →
      ((dayStepH w O stkey sta fs t1 t2).2 = .ok (fs, .validationFailed) ↔
        (trZ.npts ≠ tr1.npts ∨ trZ.npts ≠ tr2.npts ∨
         1 < ((trZ.npts : Int) - (86400 * tr0.sr : Nat)).natAbs))) ∧
    (∀ loc sth stp trZ trP,
      ¬((sacName stkey sta t1 "Z" ∈ fs ∧ sacName stkey sta t1 "H" ∈ fs) ∧
        O.ovr = false) →
      sta.location.head? = some loc →
      w.fetch sta.network sta.station loc (strUpper sta.channel ++ "Z") t1 t2 = .ok sth →
      w.fetch sta.network sta.station loc "??H" t1 t2 = .ok stp →
      (select 'Z' sth).head? = some trZ →
      stp.head? = some trP →
      ((dayStepP w O stkey sta fs t1 t2).2 = .ok (fs, .validationFailed) ↔
        (trZ.npts ≠ trP.npts ∨
         1 < ((trZ.npts : Int) - (86400 * trP.sr : Nat)).natAbs))) ∧
    (∀ loc sth stp trZ tr1 tr2 trP tr0,
      ¬((sacName stkey sta t1 "Z" ∈ fs ∧ sacName stkey sta t1 "1" ∈ fs ∧
         sacName stkey sta t1 "2" ∈ fs ∧ sacName stkey sta t1 "H" ∈ fs) ∧
        O.ovr = false) →
      sta.location.head? = some loc →
      w.fetch sta.network sta.station loc (hChans sta) t1 t2 = .ok sth →
      w.fetch sta.network sta.station loc "??H" t1 t2 = .ok stp →
      (select 'Z' sth).head? = some trZ →
      (select '1' sth).head? = some tr1 →
      (select '2' sth).head? = some tr2 →
      stp.head? = some trP →
      sth.head? = some tr0 →
      ((dayStepB w O stkey sta fs t1 t2).2 = .ok (fs, .validationFailed) ↔
        (trZ.npts ≠ tr1.npts ∨ trZ.npts ≠ tr2.npts ∨ trZ.npts ≠ trP.npts ∨
         1 < ((trZ.npts : Int) - (86400 * tr0.sr : Nat)).natAbs))) := by
  refine ⟨writes_shape_dayStep w O stkey sta fs t1 t2, ?_, ?_, ?_⟩
  · intro loc sth trZ tr1 tr2 tr0 hsk hloc hfetch hZ h1 h2 h0
    exact dayStepH_vf_iff w O stkey sta fs t1 t2 loc sth trZ tr1 tr2 tr0
      hsk hloc hfetch hZ h1 h2 h0
  · intro loc sth stp trZ trP hsk hloc hfZ hfP hZ hP
    exact dayStepP_vf_iff w O stkey sta fs t1 t2 loc sth stp trZ trP
      hsk hloc hfZ hfP hZ hP
  · intro loc sth stp trZ tr1 tr2 trP tr0 hsk hloc hfH hfP hZ h1 h2 hP h0
    exact dayStepB_vf_iff w O stkey sta fs t1 t2 loc sth stp trZ tr1 tr2 trP tr0
      hsk hloc hfH hfP hZ h1 h2 hP h0

/-- Witness for C10: a gapped bundle with two extra short traces (17 and 99
samples) after the three full-day first traces.  The extra traces are never
length-checked — the verdict is not `validationFailed` even though 17 and 99
are far outside tolerance — and only the three first traces are written. -/
theorem C10_witness :
    (dayStepH exWorldTails exOptsH "XX.YYYY" exSta [] 0 86400).2 ≠
      .ok ([], .validationFailed) ∧
    writeEvents (dayStepH exWorldTails exOptsH "XX.YYYY" exSta [] 0 86400).1 =
      [(sacName "XX.YYYY" exSta 0 "Z",
        update_stats (exTr 'Z' 432000) 0 0 0 'Z'),
       (sacName "XX.YYYY" exSta 0 "1",
        update_stats (exTr '1' 432000) 0 0 0 '1'),
       (sacName "XX.YYYY" exSta 0 "2",
        update_stats (exTr '2' 432000) 0 0 0 '2')] := by
  constructor
  · intro hc
    have h := (C10_first_trace_only exWorldTails exOptsH "XX.YYYY" exSta [] 0 86400).2.1
      "--" [exTr 'Z' 432000, exTr '1' 432000, exTr '2' 432000, exTr 'Z' 17, exTr '1' 99]
      (exTr 'Z' 432000) (exTr '1' 432000) (exTr '2' 432000) (exTr 'Z' 432000)
      (by simp) rfl rfl rfl rfl rfl rfl
    have hd := h.mp hc
    revert hd
    decide
  · rfl

end Atacr
